import Mathlib

/-!
Verification development for the bookbrain backend (sskim91/bookbrain).

The definitions below are a shallow embedding of the Python sources under
src/bookbrain-backend/src/bookbrain/.  Conventions:

* pure functions are translated to Lean functions keeping the source names;
* external collaborators (the tiktoken encoding, the LangChain text splitter,
  the Storm Parse API, the OpenAI embeddings endpoint, PostgreSQL, Qdrant,
  S3/boto3, the filesystem) are parameters of the embedding: either function
  arguments (tokenizer, splitter) or fields of an explicit environment record
  describing the outcome of each external call of a run;
* fallible code returns Except / Option; Python exception routing (the
  try/except clauses) is translated branch by branch;
* stateful code is explicit state passing over a record of the relevant
  stores (relational records, local/S3 pdf files, local/S3 parsed-result
  JSON files, vector points, temp files) plus an event trace recording
  which calls were made, in order.
-/

/-! ### Data model: models/parser.py -/

/-- models/parser.py ParsedPage: a single parsed page (tables and figures are
lists of opaque structured records, carried here as opaque strings). -/
structure ParsedPage where
  page_number : Int
  content : String
  tables : List String := []
  figures : List String := []
deriving DecidableEq

/-- models/parser.py ParsedDocument: a fully parsed PDF document. -/
structure ParsedDocument where
  pages : List ParsedPage
  total_pages : Int
  metadata : Option (List (String × String)) := none
deriving DecidableEq

/-! ### Data model: models/chunker.py -/

/-- models/chunker.py Chunk.  index and token_count are assigned from list
positions and token-list lengths in the sources, hence Nat here; page_number
comes from the external API and stays Int. -/
structure Chunk where
  index : Nat
  content : String
  page_number : Int
  token_count : Nat
deriving DecidableEq

/-- models/chunker.py ChunkedDocument. -/
structure ChunkedDocument where
  chunks : List Chunk
  total_chunks : Nat
  source_pages : Int
deriving DecidableEq

/-! ### Token-based chunker: services/chunker.py -/

/-- services/chunker.py CHUNK_SIZE (tokens). -/
def CHUNK_SIZE : Nat := 1000

/-- services/chunker.py OVERLAP_SIZE (tokens). -/
def OVERLAP_SIZE : Nat := 100

/-- The while-loop of services/chunker.py chunk_text (lines 96-123), expressed
on window boundaries over the flat token array of length `total`:
starting at `s`, emit the window `(s, min (s + CHUNK_SIZE) total)`, then
continue from `end - OVERLAP_SIZE` unless one of the two break guards fires.
The loop advances by CHUNK_SIZE - OVERLAP_SIZE = 900 tokens per iteration, so
a fuel of `total + 1` (used by `chunkWindows`) is always sufficient; the fuel
argument only makes the recursion structural. -/
def chunkWindowsAux (total : Nat) : Nat → Nat → List (Nat × Nat)
  | 0, _ => []
  | fuel + 1, s =>
    if s < total then
      let e := min (s + CHUNK_SIZE) total
      if total ≤ e then [(s, e)]
      else if total - OVERLAP_SIZE ≤ e - OVERLAP_SIZE then [(s, e)]
      else (s, e) :: chunkWindowsAux total fuel (e - OVERLAP_SIZE)
    else []

/-- All chunk windows of a flat token array of length `total`. -/
def chunkWindows (total : Nat) : List (Nat × Nat) :=
  chunkWindowsAux total (total + 1) 0

/-- chunk_tokens = all_tokens[start_token:end_token] for a window. -/
def sliceTokens (T : List Nat) (w : Nat × Nat) : List Nat :=
  (T.drop w.1).take (w.2 - w.1)

/-- The flat token array `all_tokens` built by chunk_text from the non-empty
pages of the document (pages with empty content are skipped; pages whose
tokenization is empty contribute nothing). `tok` is the external tiktoken
cl100k_base encoder. -/
def flatTokens (tok : String → List Nat) (doc : ParsedDocument) : List Nat :=
  (doc.pages.map (fun p => if p.content = "" then [] else tok p.content)).flatten

/-- The parallel `token_page_map` array of chunk_text. -/
def tokenPageMap (tok : String → List Nat) (doc : ParsedDocument) : List Int :=
  (doc.pages.map (fun p =>
    if p.content = "" then []
    else List.replicate (tok p.content).length p.page_number)).flatten

/-- The token slices of all chunks emitted by chunk_text. -/
def chunkTokenSlices (T : List Nat) : List (List Nat) :=
  (chunkWindows T.length).map (sliceTokens T)

/-- services/chunker.py chunk_text, parameterized by the external tiktoken
encode/decode functions.  Each emitted window becomes one Chunk whose content
is the detokenized slice, whose page_number is the page owning the first
token of the window, and whose token_count is the slice length. -/
def chunk_text (tok : String → List Nat) (detok : List Nat → String)
    (parsed_document : ParsedDocument) : ChunkedDocument :=
  if parsed_document.pages.isEmpty then
    { chunks := [], total_chunks := 0, source_pages := parsed_document.total_pages }
  else
    let T := flatTokens tok parsed_document
    let pmap := tokenPageMap tok parsed_document
    if T.length = 0 then
      { chunks := [], total_chunks := 0, source_pages := parsed_document.total_pages }
    else
      let chunks := (chunkWindows T.length).enum.map (fun iw =>
        { index := iw.1
          content := detok (sliceTokens T iw.2)
          page_number := pmap.getD iw.2.1 0
          token_count := (sliceTokens T iw.2).length : Chunk })
      { chunks := chunks, total_chunks := chunks.length,
        source_pages := parsed_document.total_pages }

/-- Re-assembly of chunk token slices: keep the first chunk whole and strip
the OVERLAP_SIZE leading tokens from every later chunk, then concatenate. -/
def reassemble (slices : List (List Nat)) : List Nat :=
  match slices with
  | [] => []
  | c :: cs => c ++ (cs.map (List.drop OVERLAP_SIZE)).flatten

/-! ### Sentence-aware chunker: services/sentence_chunker.py -/

/-- services/sentence_chunker.py CHUNK_SIZE (target tokens; renamed here to
avoid clashing with the token chunker constant of the same Python name). -/
def SENTENCE_CHUNK_SIZE : Nat := 300

/-- services/sentence_chunker.py CHUNK_OVERLAP (characters). -/
def SENTENCE_CHUNK_OVERLAP : Nat := 50

/-- services/sentence_chunker.py CHARS_PER_TOKEN (approximate ratio). -/
def CHARS_PER_TOKEN : Nat := 4

/-- Python str.strip(): remove leading and trailing whitespace (executable
model of the .strip() calls in sentence_chunker.py). -/
def pyStrip (s : String) : String :=
  String.mk (((s.data.dropWhile Char.isWhitespace).reverse.dropWhile
    Char.isWhitespace).reverse)

/-- services/sentence_chunker.py chunk_text.  `splitText` is the external
LangChain RecursiveCharacterTextSplitter.split_text configured with
chunk_size = SENTENCE_CHUNK_SIZE * CHARS_PER_TOKEN characters, and
`countTokens` is the external tiktoken token counter; both are parameters of
the embedding.  Pages whose content is empty or whitespace-only are dropped,
every produced piece is stripped, empty pieces are skipped, and chunk indices
are assigned globally in emission order. -/
def sentence_chunk_text (splitText : String → List String)
    (countTokens : String → Nat) (parsed_document : ParsedDocument) :
    ChunkedDocument :=
  if parsed_document.pages.isEmpty then
    { chunks := [], total_chunks := 0, source_pages := parsed_document.total_pages }
  else
    let page_contents := (parsed_document.pages.filter
      (fun p => p.content ≠ "" && pyStrip p.content ≠ "")).map
      (fun p => (p.page_number, p.content))
    if page_contents.isEmpty then
      { chunks := [], total_chunks := 0, source_pages := parsed_document.total_pages }
    else
      let pieces := page_contents.flatMap (fun pc =>
        (((splitText pc.2).map pyStrip).filter (fun s => s ≠ "")).map
          (fun s => (pc.1, s)))
      let chunks := pieces.enum.map (fun ip =>
        { index := ip.1
          content := ip.2.2
          page_number := ip.2.1
          token_count := countTokens ip.2.2 : Chunk })
      { chunks := chunks, total_chunks := chunks.length,
        source_pages := parsed_document.total_pages }

/-! ### Chunker lemmas -/

/-- Every window emitted by the chunk loop ends at most CHUNK_SIZE tokens
after its start and never past the end of the token array. -/
theorem chunkWindowsAux_bounds (total : Nat) :
    ∀ (fuel s : Nat) (w : Nat × Nat), w ∈ chunkWindowsAux total fuel s →
      w.2 ≤ w.1 + CHUNK_SIZE ∧ w.2 ≤ total := by
  intro fuel
  induction fuel with
  | zero => intro s w hw; simp [chunkWindowsAux] at hw
  | succ fuel ih =>
    intro s w hw
    simp only [chunkWindowsAux] at hw
    by_cases hs : s < total
    · rw [if_pos hs] at hw
      by_cases h1 : total ≤ min (s + CHUNK_SIZE) total
      · rw [if_pos h1] at hw
        simp at hw
        subst hw
        exact ⟨Nat.min_le_left _ _, Nat.min_le_right _ _⟩
      · rw [if_neg h1] at hw
        by_cases h2 : total - OVERLAP_SIZE ≤ min (s + CHUNK_SIZE) total - OVERLAP_SIZE
        · rw [if_pos h2] at hw
          simp at hw
          subst hw
          exact ⟨Nat.min_le_left _ _, Nat.min_le_right _ _⟩
        · rw [if_neg h2] at hw
          simp only [List.mem_cons] at hw
          rcases hw with hw | hw
          · subst hw
            exact ⟨Nat.min_le_left _ _, Nat.min_le_right _ _⟩
          · exact ih _ _ hw
    · rw [if_neg hs] at hw
      simp at hw

/-- Splicing arithmetic for one loop step: chopping the overlap off a
CHUNK_SIZE window starting at `s` and then continuing from `s + CHUNK_SIZE`
is the same as continuing from `s + OVERLAP_SIZE`. -/
theorem take_drop_overlap (T : List Nat) (s : Nat) :
    ((T.drop s).take CHUNK_SIZE).drop OVERLAP_SIZE ++ T.drop (s + CHUNK_SIZE)
      = T.drop (s + OVERLAP_SIZE) := by
  have h1 : ((T.drop s).take CHUNK_SIZE).drop OVERLAP_SIZE
      = ((T.drop s).drop OVERLAP_SIZE).take (CHUNK_SIZE - OVERLAP_SIZE) :=
    List.drop_take _ _ _
  have h2 : (T.drop s).drop OVERLAP_SIZE = T.drop (s + OVERLAP_SIZE) :=
    List.drop_drop _ _ _
  have h3 : T.drop (s + CHUNK_SIZE)
      = (T.drop (s + OVERLAP_SIZE)).drop (CHUNK_SIZE - OVERLAP_SIZE) := by
    rw [List.drop_drop]
    congr 1
  rw [h1, h2, h3]
  exact List.take_append_drop _ _

/-- Dropping the overlap from every window slice starting at `s` and
concatenating yields the token array from position `s + OVERLAP_SIZE` on. -/
theorem chunkWindowsAux_drop_flatten (T : List Nat) :
    ∀ (fuel s : Nat), T.length ≤ fuel + s → s < T.length →
      ((chunkWindowsAux T.length fuel s).map
        (fun w => (sliceTokens T w).drop OVERLAP_SIZE)).flatten
        = T.drop (s + OVERLAP_SIZE) := by
  have hCS : CHUNK_SIZE = 1000 := rfl
  have hOS : OVERLAP_SIZE = 100 := rfl
  intro fuel
  induction fuel with
  | zero => intro s hle hs; omega
  | succ fuel ih =>
    intro s hle hs
    simp only [chunkWindowsAux]
    rw [if_pos hs]
    by_cases h1 : T.length ≤ min (s + CHUNK_SIZE) T.length
    · have he : min (s + CHUNK_SIZE) T.length = T.length :=
        Nat.le_antisymm (Nat.min_le_right _ _) h1
      rw [if_pos h1]
      have hslice : sliceTokens T (s, T.length) = T.drop s := by
        have hlen : (T.drop s).length = T.length - s := by simp
        simp only [sliceTokens]
        rw [← hlen]
        exact List.take_length _
      simp only [he, List.map_cons, List.map_nil, List.flatten_cons,
        List.flatten_nil, List.append_nil, hslice]
      rw [List.drop_drop]
    · have hmin : min (s + CHUNK_SIZE) T.length = s + CHUNK_SIZE := by
        have h := Nat.lt_of_not_le h1
        rcases Nat.le_total (s + CHUNK_SIZE) T.length with hh | hh
        · exact Nat.min_eq_left hh
        · rw [Nat.min_eq_right hh] at h
          omega
      have ha : s + CHUNK_SIZE < T.length := by
        have := Nat.lt_of_not_le h1
        omega
      rw [if_neg h1]
      have h2 : ¬ (T.length - OVERLAP_SIZE ≤ min (s + CHUNK_SIZE) T.length - OVERLAP_SIZE) := by
        omega
      rw [if_neg h2]
      simp only [List.map_cons, List.flatten_cons]
      have hrec := ih (min (s + CHUNK_SIZE) T.length - OVERLAP_SIZE)
        (by omega) (by omega)
      rw [hrec]
      have hslice : sliceTokens T (s, min (s + CHUNK_SIZE) T.length)
          = (T.drop s).take CHUNK_SIZE := by
        simp only [sliceTokens]
        congr 1
        omega
      have hidx : min (s + CHUNK_SIZE) T.length - OVERLAP_SIZE + OVERLAP_SIZE
          = s + CHUNK_SIZE := by omega
      rw [hslice, hidx]
      exact take_drop_overlap T s

/-- Re-assembling the chunk token slices of any token array reconstructs it. -/
theorem reassemble_chunkTokenSlices (T : List Nat) :
    reassemble (chunkTokenSlices T) = T := by
  have hCS : CHUNK_SIZE = 1000 := rfl
  have hOS : OVERLAP_SIZE = 100 := rfl
  unfold chunkTokenSlices chunkWindows
  by_cases hT : T.length = 0
  · have : T = [] := List.length_eq_zero.mp hT
    subst this
    simp [chunkWindowsAux, reassemble]
  · simp only [chunkWindowsAux, Nat.zero_add]
    rw [if_pos (Nat.pos_of_ne_zero hT)]
    by_cases h1 : T.length ≤ min CHUNK_SIZE T.length
    · have he : min CHUNK_SIZE T.length = T.length :=
        Nat.le_antisymm (Nat.min_le_right _ _) h1
      rw [if_pos h1]
      have hslice : sliceTokens T (0, T.length) = T := by
        simp [sliceTokens]
      simp only [he, List.map_cons, List.map_nil, reassemble, hslice,
        List.map_nil, List.flatten_nil, List.append_nil]
    · have hmin : min CHUNK_SIZE T.length = CHUNK_SIZE := by
        have h := Nat.lt_of_not_le h1
        rcases Nat.le_total CHUNK_SIZE T.length with hh | hh
        · exact Nat.min_eq_left hh
        · rw [Nat.min_eq_right hh] at h
          omega
      have ha : CHUNK_SIZE < T.length := by
        have := Nat.lt_of_not_le h1
        omega
      rw [if_neg h1]
      have h2 : ¬ (T.length - OVERLAP_SIZE ≤ min CHUNK_SIZE T.length - OVERLAP_SIZE) := by
        omega
      rw [if_neg h2]
      simp only [List.map_cons, reassemble, List.map_map]
      have hrec := chunkWindowsAux_drop_flatten T T.length
        (min CHUNK_SIZE T.length - OVERLAP_SIZE) (by omega) (by omega)
      have hfun : (List.drop OVERLAP_SIZE ∘ sliceTokens T)
      = (fun w => (sliceTokens T w).drop OVERLAP_SIZE) := rfl
      rw [hfun, hrec]
      have hslice : sliceTokens T (0, min CHUNK_SIZE T.length)
          = T.take CHUNK_SIZE := by
        simp only [sliceTokens, List.drop_zero]
        congr 1
      have hidx : min CHUNK_SIZE T.length - OVERLAP_SIZE + OVERLAP_SIZE
          = CHUNK_SIZE := by omega
      rw [hslice, hidx]
      exact List.take_append_drop _ _

/-- Concrete tokenizer instance used by witnesses: one token per character. -/
def tokC (s : String) : List Nat := s.data.map Char.toNat

/-- Concrete detokenizer instance used by witnesses, inverse of `tokC`. -/
def detokC (l : List Nat) : String := String.mk (l.map Char.ofNat)

/-- One-page document used by witnesses. -/
def docOnePage : ParsedDocument :=
  { pages := [{ page_number := 1, content := "ab" }], total_pages := 1 }

/-- C6: chunk re-assembly round-trip.  For every ParsedDocument (and any
tokenizer), concatenating the token slices of all chunks produced by the
token-based chunker, after removing the OVERLAP_SIZE-token overlap from the
start of every chunk except the first, reconstructs exactly the flat token
sequence of the document's non-empty pages; and the chunks' contents are
precisely the detokenizations of those slices. -/
theorem chunk_reassembly_roundtrip (tok : String → List Nat)
    (detok : List Nat → String) (doc : ParsedDocument) :
    reassemble (chunkTokenSlices (flatTokens tok doc)) = flatTokens tok doc ∧
    (chunk_text tok detok doc).chunks.map Chunk.content
      = (chunkTokenSlices (flatTokens tok doc)).map detok := by
  refine ⟨reassemble_chunkTokenSlices _, ?_⟩
  unfold chunk_text
  by_cases hp : doc.pages.isEmpty
  · rw [if_pos hp]
    have hT : flatTokens tok doc = [] := by
      rw [List.isEmpty_iff] at hp
      simp [flatTokens, hp]
    rw [hT]
    simp [chunkTokenSlices, chunkWindows, chunkWindowsAux]
  · rw [if_neg hp]
    by_cases hT : (flatTokens tok doc).length = 0
    · rw [if_pos hT]
      have h0 : flatTokens tok doc = [] := List.length_eq_zero.mp hT
      rw [h0]
      simp [chunkTokenSlices, chunkWindows, chunkWindowsAux]
    · rw [if_neg hT]
      simp only [chunkTokenSlices, List.map_map]
      have hrhs : List.map (detok ∘ sliceTokens (flatTokens tok doc))
            (chunkWindows (flatTokens tok doc).length)
          = List.map ((detok ∘ sliceTokens (flatTokens tok doc)) ∘ Prod.snd)
            (chunkWindows (flatTokens tok doc).length).enum := by
        conv_rhs => rw [← List.map_map]
        rw [List.enum_map_snd]
      rw [hrhs]
      rfl

/-- Amended C7 (token-based chunker part): every chunk emitted by
services/chunker.py chunk_text has token_count at most CHUNK_SIZE, the final
chunk included. -/
theorem token_chunk_token_count_le (tok : String → List Nat)
    (detok : List Nat → String) (doc : ParsedDocument) :
    ∀ c ∈ (chunk_text tok detok doc).chunks, c.token_count ≤ CHUNK_SIZE := by
  intro c hc
  unfold chunk_text at hc
  by_cases hp : doc.pages.isEmpty
  · rw [if_pos hp] at hc
    simp at hc
  · rw [if_neg hp] at hc
    by_cases hT : (flatTokens tok doc).length = 0
    · rw [if_pos hT] at hc
      simp at hc
    · rw [if_neg hT] at hc
      simp only [List.mem_map] at hc
      obtain ⟨iw, hiw, rfl⟩ := hc
      have hw : iw.2 ∈ chunkWindows (flatTokens tok doc).length := by
        have hm := List.mem_map_of_mem Prod.snd hiw
        rwa [List.enum_map_snd] at hm
      have hb := chunkWindowsAux_bounds (flatTokens tok doc).length _ _ _ hw
      show (sliceTokens (flatTokens tok doc) iw.2).length ≤ CHUNK_SIZE
      simp only [sliceTokens, List.length_take]
      omega

/-- Witness for the amended C7 theorem at a concrete document: the single
chunk of a two-token page. -/
theorem token_chunk_token_count_le_witness :
    ({ index := 0, content := "ab", page_number := 1, token_count := 2 } : Chunk).token_count
      ≤ CHUNK_SIZE :=
  token_chunk_token_count_le tokC detokC docOnePage
    { index := 0, content := "ab", page_number := 1, token_count := 2 } (by decide)

/-- Splitter instance for the sentence-chunker counterexample: content within
the 1200-character budget of the RecursiveCharacterTextSplitter is returned
unsplit, which is exactly what that splitter does to such content. -/
def splitWhole (s : String) : List String := [s]

/-- Token-counter instance for the counterexample: one token per character,
the regime of CJK text, for which the cl100k_base encoding emits one or more
tokens per character - far above the CHARS_PER_TOKEN = 4 estimate that
sentence_chunker.py relies on when converting its token budget to characters. -/
def countTokensPerChar (s : String) : Nat := s.length

/-- Two-page document whose first page is 400 characters of Korean text; the
sentence chunker leaves such a page as one chunk of 400 tokens. -/
def docLongPage : ParsedDocument :=
  { pages := [{ page_number := 1, content := String.mk (List.replicate 400 '글') },
              { page_number := 2, content := "b" }], total_pages := 2 }

set_option maxRecDepth 100000 in
/-- C7 counterexample: the sentence-aware chunker emits a non-final chunk
whose token_count (400) exceeds its configured chunk size (300 tokens): its
budget is enforced in characters, not tokens. -/
theorem sentence_chunk_token_bound_cex :
    ¬ (∀ c ∈ (sentence_chunk_text splitWhole countTokensPerChar docLongPage).chunks.dropLast,
        c.token_count ≤ SENTENCE_CHUNK_SIZE) := by decide

/-! ### Embedding client: services/embedder.py and models/embedder.py

The provider (AsyncOpenAI embeddings endpoint) is external; V is the type of
one embedding vector (list[float] in the source) carried opaquely. -/

/-- models/embedder.py EmbeddedChunk. -/
structure EmbeddedChunk (V : Type) where
  chunk : Chunk
  vector : V
deriving DecidableEq

/-- models/embedder.py EmbeddingResult. -/
structure EmbeddingResult (V : Type) where
  embedded_chunks : List (EmbeddedChunk V)
  model_version : String
  total_tokens : Nat
deriving DecidableEq

/-- One successful response of the external embeddings endpoint: the
embeddings for the submitted texts, the model the provider reports, and the
token usage. -/
structure ApiBatchResponse (V : Type) where
  embeddings : List V
  model : String
  tokens : Nat
deriving DecidableEq

/-- Batches of `range(0, len(chunks), batch_size)` in services/embedder.py
generate_embeddings: consecutive groups of `bs` chunks.  The fuel is
`chunks.length` (enough whenever `0 < bs`, since every step consumes at least
one chunk); Python raises ValueError on a zero step, and a zero `bs` here
just truncates, a configuration no theorem uses. -/
def embedBatchesAux (bs : Nat) : Nat → List Chunk → List (List Chunk)
  | 0, _ => []
  | _, [] => []
  | fuel + 1, chunks => chunks.take bs :: embedBatchesAux bs fuel (chunks.drop bs)

/-- The list of per-call batches of generate_embeddings. -/
def embedBatches (bs : Nat) (chunks : List Chunk) : List (List Chunk) :=
  embedBatchesAux bs chunks.length chunks

/-- The batch loop of generate_embeddings (lines 107-122): for each batch,
call the provider on the batch's contents, accumulate tokens, overwrite the
model version with the one the provider reports, and append the zip of the
batch with the returned embeddings. -/
def genEmbedAux (api : List String → ApiBatchResponse V) (bs : Nat) :
    Nat → List Chunk → String → Nat → List (EmbeddedChunk V) → EmbeddingResult V
  | _, [], model, tokens, acc =>
    { embedded_chunks := acc, model_version := model, total_tokens := tokens }
  | 0, _, model, tokens, acc =>
    { embedded_chunks := acc, model_version := model, total_tokens := tokens }
  | fuel + 1, chunks, _, tokens, acc =>
    let batch := chunks.take bs
    let r := api (batch.map Chunk.content)
    genEmbedAux api bs fuel (chunks.drop bs) r.model (tokens + r.tokens)
      (acc ++ (batch.zip r.embeddings).map (fun p =>
        { chunk := p.1, vector := p.2 }))

/-- services/embedder.py generate_embeddings: empty input returns an empty
result carrying the configured model with no provider call; otherwise the
chunks are processed in `embedBatches`-sized provider calls. -/
def generate_embeddings (api : List String → ApiBatchResponse V)
    (bs : Nat) (defaultModel : String) (chunks : List Chunk) :
    EmbeddingResult V :=
  if chunks.isEmpty then
    { embedded_chunks := [], model_version := defaultModel, total_tokens := 0 }
  else
    genEmbedAux api bs chunks.length chunks defaultModel 0 []

/-! ### Embedding retry loop: services/embedder.py _call_embeddings_api -/

/-- Outcome of one attempt of the external embeddings call: a successful
response, a RateLimitError, an APIError carrying a message, or any other
exception carrying a message. -/
inductive ApiAttempt (V : Type) where
  | success (r : ApiBatchResponse V)
  | rateLimit
  | apiError (msg : String)
  | otherError (msg : String)
deriving DecidableEq

/-- The retry loop of _call_embeddings_api (lines 42-74), with `out i` the
outcome of attempt `i` (0-indexed).  Returns the list of back-off delays that
were slept, in order, and either the successful response or the EmbeddingError
message raised.  On RateLimitError before the last attempt it sleeps
`baseDelay * 2 ^ attempt` and retries; on the last attempt it raises the
rate-limit-exhausted error carrying the retry count; on APIError or any other
exception it raises immediately. -/
def callApiAux (out : Nat → ApiAttempt V) (maxRetries baseDelay : Nat) :
    Nat → List Nat × Except String (ApiBatchResponse V)
  | attempt =>
    if attempt < maxRetries then
      match out attempt with
      | .success r => ([], .ok r)
      | .rateLimit =>
        if attempt < maxRetries - 1 then
          let rest := callApiAux out maxRetries baseDelay (attempt + 1)
          (baseDelay * 2 ^ attempt :: rest.1, rest.2)
        else
          ([], .error ("Rate limit exceeded after " ++ toString maxRetries
            ++ " retries"))
      | .apiError m => ([], .error ("OpenAI API error: " ++ m))
      | .otherError m => ([], .error ("Unexpected error: " ++ m))
    else
      ([], .error ("Failed after " ++ toString maxRetries ++ " retries"))
  termination_by attempt => maxRetries - attempt
  decreasing_by omega

/-- services/embedder.py _call_embeddings_api: run the retry loop from
attempt 0. -/
def call_embeddings_api (out : Nat → ApiAttempt V)
    (maxRetries baseDelay : Nat) : List Nat × Except String (ApiBatchResponse V) :=
  callApiAux out maxRetries baseDelay 0

/-! ### Embedder lemmas -/

/-- The batches of generate_embeddings concatenate back to the input list. -/
theorem embedBatchesAux_flatten (bs : Nat) (hbs : 0 < bs) :
    ∀ (fuel : Nat) (chunks : List Chunk), chunks.length ≤ fuel →
      (embedBatchesAux bs fuel chunks).flatten = chunks := by
  intro fuel
  induction fuel with
  | zero =>
    intro chunks hle
    have : chunks = [] := List.length_eq_zero.mp (Nat.le_zero.mp hle)
    subst this
    rfl
  | succ fuel ih =>
    intro chunks hle
    cases chunks with
    | nil => rfl
    | cons c cs =>
      simp only [embedBatchesAux, List.flatten_cons]
      rw [ih ((c :: cs).drop bs) (by simp at hle ⊢; omega)]
      exact List.take_append_drop _ _

/-- Every batch of generate_embeddings is non-empty and holds at most `bs`
chunks. -/
theorem embedBatchesAux_mem (bs : Nat) (hbs : 0 < bs) :
    ∀ (fuel : Nat) (chunks : List Chunk) (b : List Chunk),
      b ∈ embedBatchesAux bs fuel chunks → b ≠ [] ∧ b.length ≤ bs := by
  intro fuel
  induction fuel with
  | zero => intro chunks b hb; simp [embedBatchesAux] at hb
  | succ fuel ih =>
    intro chunks b hb
    cases chunks with
    | nil => simp [embedBatchesAux] at hb
    | cons c cs =>
      simp only [embedBatchesAux, List.mem_cons] at hb
      rcases hb with hb | hb
      · subst hb
        constructor
        · simp [List.take_eq_nil_iff]
          omega
        · simp
      · exact ih _ _ hb

/-- The number of batches (= provider calls) is the ceiling of
`chunks.length / bs`. -/
theorem embedBatchesAux_length (bs : Nat) (hbs : 0 < bs) :
    ∀ (fuel : Nat) (chunks : List Chunk), chunks.length ≤ fuel →
      (embedBatchesAux bs fuel chunks).length = (chunks.length + bs - 1) / bs := by
  intro fuel
  induction fuel with
  | zero =>
    intro chunks hle
    have : chunks = [] := List.length_eq_zero.mp (Nat.le_zero.mp hle)
    subst this
    simp [embedBatchesAux, Nat.div_eq_of_lt (by omega : bs - 1 < bs)]
  | succ fuel ih =>
    intro chunks hle
    cases chunks with
    | nil => simp [embedBatchesAux, Nat.div_eq_of_lt (by omega : bs - 1 < bs)]
    | cons c cs =>
      simp only [embedBatchesAux, List.length_cons]
      rw [ih ((c :: cs).drop bs) (by simp at hle ⊢; omega)]
      have hlen : ((c :: cs).drop bs).length = cs.length + 1 - bs := by simp
      rw [hlen]
      have hsplit : cs.length + 1 + bs - 1 = (cs.length + 1 - 1) + bs := by omega
      rw [hsplit, Nat.add_div_right _ hbs]
      by_cases hc : cs.length + 1 ≤ bs
      · have h1 : cs.length + 1 - bs + bs - 1 = bs - 1 := by omega
        have h2 : cs.length + 1 - 1 < bs := by omega
        rw [h1, Nat.div_eq_of_lt (by omega : bs - 1 < bs), Nat.div_eq_of_lt h2]
      · have h1 : cs.length + 1 - bs + bs - 1 = cs.length + 1 - 1 := by omega
        rw [h1, Nat.add_comm]

/-- The embedded chunks accumulated by the batch loop are the accumulator
followed by the remaining input, in order. -/
theorem genEmbedAux_chunks (api : List String → ApiBatchResponse V) (bs : Nat)
    (hbs : 0 < bs) (hapi : ∀ ts, (api ts).embeddings.length = ts.length) :
    ∀ (fuel : Nat) (chunks : List Chunk) (model : String) (tokens : Nat)
      (acc : List (EmbeddedChunk V)), chunks.length ≤ fuel →
      (genEmbedAux api bs fuel chunks model tokens acc).embedded_chunks.map
        EmbeddedChunk.chunk = acc.map EmbeddedChunk.chunk ++ chunks := by
  intro fuel
  induction fuel with
  | zero =>
    intro chunks model tokens acc hle
    have : chunks = [] := List.length_eq_zero.mp (Nat.le_zero.mp hle)
    subst this
    simp [genEmbedAux]
  | succ fuel ih =>
    intro chunks model tokens acc hle
    cases chunks with
    | nil => simp [genEmbedAux]
    | cons c cs =>
      simp only [genEmbedAux]
      rw [ih ((c :: cs).drop bs) _ _ _ (by simp at hle ⊢; omega)]
      rw [List.map_append, List.map_map]
      have hzip : (((c :: cs).take bs).zip
            (api (((c :: cs).take bs).map Chunk.content)).embeddings).map
            (EmbeddedChunk.chunk ∘ fun p => { chunk := p.1, vector := p.2 })
          = (c :: cs).take bs := by
        have hlen : ((c :: cs).take bs).length
            ≤ (api (((c :: cs).take bs).map Chunk.content)).embeddings.length := by
          rw [hapi]
          simp
        exact List.map_fst_zip _ _ hlen
      rw [hzip, List.append_assoc, List.take_append_drop]

/-- C8: generate_embeddings partitions a non-empty input into consecutive
non-empty batches of at most the configured batch size, issues one provider
call per batch (so ceil(150/100) = 2 calls for 150 chunks at batch size 100),
and preserves order: the result maps back to exactly the input chunk list,
so embedded_chunks[i].chunk = chunks[i] for every i.  The provider contract
(one embedding per submitted text) is the hypothesis `hapi`. -/
theorem generate_embeddings_batches_order (V : Type)
    (api : List String → ApiBatchResponse V) (bs : Nat) (defaultModel : String)
    (chunks : List Chunk) (hbs : 0 < bs)
    (hapi : ∀ ts, (api ts).embeddings.length = ts.length)
    (hne : chunks ≠ []) :
    (generate_embeddings api bs defaultModel chunks).embedded_chunks.map
      EmbeddedChunk.chunk = chunks ∧
    (embedBatches bs chunks).flatten = chunks ∧
    (∀ b ∈ embedBatches bs chunks, b ≠ [] ∧ b.length ≤ bs) ∧
    (embedBatches bs chunks).length = (chunks.length + bs - 1) / bs := by
  refine ⟨?_, ?_, ?_, ?_⟩
  · unfold generate_embeddings
    rw [if_neg (by simpa [List.isEmpty_iff] using hne)]
    rw [genEmbedAux_chunks api bs hbs hapi chunks.length chunks defaultModel 0 []
      (Nat.le_refl _)]
    simp
  · exact embedBatchesAux_flatten bs hbs _ _ (Nat.le_refl _)
  · intro b hb
    exact embedBatchesAux_mem bs hbs _ _ _ hb
  · exact embedBatchesAux_length bs hbs _ _ (Nat.le_refl _)

/-- Chunk instance used by the C8 witness. -/
def chunkW : Chunk := { index := 0, content := "t", page_number := 1, token_count := 1 }

/-- Provider instance used by the C8 witness: one zero vector per text. -/
def apiW : List String → ApiBatchResponse Nat :=
  fun ts => { embeddings := ts.map (fun _ => 0), model := "m", tokens := ts.length }

/-- Witness for C8 at the spec's concrete scenario: 150 chunks with batch
size 100, giving (150 + 100 - 1) / 100 = 2 provider calls. -/
theorem generate_embeddings_batches_order_witness :
    (generate_embeddings apiW 100 "dm" (List.replicate 150 chunkW)).embedded_chunks.map
      EmbeddedChunk.chunk = List.replicate 150 chunkW ∧
    (embedBatches 100 (List.replicate 150 chunkW)).flatten = List.replicate 150 chunkW ∧
    (∀ b ∈ embedBatches 100 (List.replicate 150 chunkW), b ≠ [] ∧ b.length ≤ 100) ∧
    (embedBatches 100 (List.replicate 150 chunkW)).length
      = ((List.replicate 150 chunkW).length + 100 - 1) / 100 :=
  generate_embeddings_batches_order Nat apiW 100 "dm" (List.replicate 150 chunkW)
    (by decide) (fun ts => by simp [apiW]) (by simp)

/-- A run that sees RateLimitError on attempts `j..k-1` and succeeds on
attempt `k` sleeps exactly the back-off delays of those attempts, in order,
and returns the successful response. -/
theorem callApiAux_success (out : Nat → ApiAttempt V) (maxRetries baseDelay : Nat)
    (k : Nat) (r : ApiBatchResponse V) (hk : k < maxRetries)
    (hrl : ∀ i, i < k → out i = .rateLimit) (hs : out k = .success r) :
    ∀ (j : Nat), j ≤ k →
      callApiAux out maxRetries baseDelay j
        = ((List.range' j (k - j)).map (fun a => baseDelay * 2 ^ a), .ok r) := by
  suffices hgen : ∀ (n j : Nat), k - j = n → j ≤ k →
      callApiAux out maxRetries baseDelay j
        = ((List.range' j (k - j)).map (fun a => baseDelay * 2 ^ a), .ok r) by
    intro j hj
    exact hgen (k - j) j rfl hj
  intro n
  induction n with
  | zero =>
    intro j hn hj
    have hjk : j = k := by omega
    subst hjk
    rw [callApiAux]
    rw [if_pos (by omega)]
    rw [hs]
    simp [List.range', hn]
  | succ n ih =>
    intro j hn hj
    have hjk : j < k := by omega
    rw [callApiAux]
    rw [if_pos (by omega)]
    rw [hrl j hjk]
    rw [if_pos (by omega)]
    rw [ih (j + 1) (by omega) (by omega)]
    have h2 : k - (j + 1) = n := by omega
    rw [h2, hn]
    simp [List.range']

/-- A run that sees RateLimitError on every attempt sleeps the back-off
delays of all attempts but the last, then raises the rate-limit-exhausted
error carrying the configured retry count. -/
theorem callApiAux_exhaust (out : Nat → ApiAttempt V) (maxRetries baseDelay : Nat)
    (hrl : ∀ i, i < maxRetries → out i = .rateLimit) :
    ∀ (j : Nat), j < maxRetries →
      callApiAux out maxRetries baseDelay j
        = ((List.range' j (maxRetries - 1 - j)).map (fun a => baseDelay * 2 ^ a),
           .error ("Rate limit exceeded after " ++ toString maxRetries ++ " retries")) := by
  suffices hgen : ∀ (n j : Nat), maxRetries - 1 - j = n → j < maxRetries →
      callApiAux out maxRetries baseDelay j
        = ((List.range' j (maxRetries - 1 - j)).map (fun a => baseDelay * 2 ^ a),
           .error ("Rate limit exceeded after " ++ toString maxRetries ++ " retries")) by
    intro j hj
    exact hgen (maxRetries - 1 - j) j rfl hj
  intro n
  induction n with
  | zero =>
    intro j hn hj
    rw [callApiAux]
    rw [if_pos hj]
    rw [hrl j hj]
    rw [if_neg (by omega)]
    simp [List.range', hn]
  | succ n ih =>
    intro j hn hj
    rw [callApiAux]
    rw [if_pos hj]
    rw [hrl j hj]
    rw [if_pos (by omega)]
    rw [ih (j + 1) (by omega) (by omega)]
    have h2 : maxRetries - 1 - (j + 1) = n := by omega
    rw [h2, hn]
    simp [List.range']

/-- A run that sees RateLimitError on attempts `a..j-1` and a non-rate-limit
provider error on attempt `j` raises the embedding error of that attempt
without further retries, having slept only the rate-limit back-offs.  `pre`
is the message prefix of the raising except-clause. -/
theorem callApiAux_immediate (out : Nat → ApiAttempt V) (maxRetries baseDelay : Nat)
    (j : Nat) (msg pre : String) (hj : j < maxRetries)
    (hrl : ∀ i, i < j → out i = .rateLimit)
    (he : out j = .apiError msg ∧ pre = "OpenAI API error: "
        ∨ out j = .otherError msg ∧ pre = "Unexpected error: ") :
    ∀ (a : Nat), a ≤ j →
      callApiAux out maxRetries baseDelay a
        = ((List.range' a (j - a)).map (fun x => baseDelay * 2 ^ x),
           .error (pre ++ msg)) := by
  suffices hgen : ∀ (n a : Nat), j - a = n → a ≤ j →
      callApiAux out maxRetries baseDelay a
        = ((List.range' a (j - a)).map (fun x => baseDelay * 2 ^ x),
           .error (pre ++ msg)) by
    intro a ha
    exact hgen (j - a) a rfl ha
  intro n
  induction n with
  | zero =>
    intro a hn ha
    have haj : a = j := by omega
    subst haj
    rw [callApiAux]
    rw [if_pos (by omega)]
    rcases he with ⟨he, hp⟩ | ⟨he, hp⟩ <;> subst hp <;> rw [he] <;>
      simp [List.range', hn]
  | succ n ih =>
    intro a hn ha
    have haj : a < j := by omega
    rw [callApiAux]
    rw [if_pos (by omega)]
    rw [hrl a haj]
    rw [if_pos (by omega)]
    rw [ih (a + 1) (by omega) (by omega)]
    have h2 : j - (a + 1) = n := by omega
    rw [h2, hn]
    simp [List.range']

/-- C9: the retry policy of _call_embeddings_api.  (1) Rate-limit errors are
retried after a back-off of baseDelay * 2 ^ attempt, and a success on attempt
k within the budget yields the response having slept exactly those delays;
(2) rate-limit errors on all configured attempts exhaust the retries and
raise the distinct embedding error whose message carries the retry count;
(3) an APIError (and (4) any other provider error) raises the embedding
error immediately at its first occurrence, with no retry and no added sleep. -/
theorem embedding_retry_policy :
    (∀ (V : Type) (out : Nat → ApiAttempt V) (maxRetries baseDelay k : Nat)
      (r : ApiBatchResponse V), k < maxRetries →
      (∀ i, i < k → out i = .rateLimit) → out k = .success r →
      call_embeddings_api out maxRetries baseDelay
        = ((List.range k).map (fun a => baseDelay * 2 ^ a), .ok r)) ∧
    (∀ (V : Type) (out : Nat → ApiAttempt V) (maxRetries baseDelay : Nat),
      0 < maxRetries → (∀ i, i < maxRetries → out i = .rateLimit) →
      call_embeddings_api out maxRetries baseDelay
        = ((List.range (maxRetries - 1)).map (fun a => baseDelay * 2 ^ a),
           .error ("Rate limit exceeded after " ++ toString maxRetries ++ " retries"))) ∧
    (∀ (V : Type) (out : Nat → ApiAttempt V) (maxRetries baseDelay j : Nat)
      (msg : String), j < maxRetries → (∀ i, i < j → out i = .rateLimit) →
      out j = .apiError msg →
      call_embeddings_api out maxRetries baseDelay
        = ((List.range j).map (fun a => baseDelay * 2 ^ a),
           .error ("OpenAI API error: " ++ msg))) ∧
    (∀ (V : Type) (out : Nat → ApiAttempt V) (maxRetries baseDelay j : Nat)
      (msg : String), j < maxRetries → (∀ i, i < j → out i = .rateLimit) →
      out j = .otherError msg →
      call_embeddings_api out maxRetries baseDelay
        = ((List.range j).map (fun a => baseDelay * 2 ^ a),
           .error ("Unexpected error: " ++ msg))) := by
  refine ⟨?_, ?_, ?_, ?_⟩
  · intro V out maxRetries baseDelay k r hk hrl hs
    have h := callApiAux_success out maxRetries baseDelay k r hk hrl hs 0
      (Nat.zero_le _)
    rw [call_embeddings_api, h, List.range_eq_range', Nat.sub_zero]
  · intro V out maxRetries baseDelay hpos hrl
    have h := callApiAux_exhaust out maxRetries baseDelay hrl 0 hpos
    rw [call_embeddings_api, h, List.range_eq_range', Nat.sub_zero]
  · intro V out maxRetries baseDelay j msg hj hrl he
    have h := callApiAux_immediate out maxRetries baseDelay j msg
      "OpenAI API error: " hj hrl (Or.inl ⟨he, rfl⟩) 0 (Nat.zero_le _)
    rw [call_embeddings_api, h, List.range_eq_range', Nat.sub_zero]
  · intro V out maxRetries baseDelay j msg hj hrl he
    have h := callApiAux_immediate out maxRetries baseDelay j msg
      "Unexpected error: " hj hrl (Or.inr ⟨he, rfl⟩) 0 (Nat.zero_le _)
    rw [call_embeddings_api, h, List.range_eq_range', Nat.sub_zero]

/-- Attempt outcomes used by the C9 witness: one rate limit, then success. -/
def outSuccW : Nat → ApiAttempt Nat :=
  fun i => if i < 1 then .rateLimit
    else .success { embeddings := [5], model := "m2", tokens := 7 }

/-- Attempt outcomes used by the C9 witness: rate limited forever. -/
def outRateW : Nat → ApiAttempt Nat := fun _ => .rateLimit

/-- Attempt outcomes used by the C9 witness: one rate limit, then APIError. -/
def outApiErrW : Nat → ApiAttempt Nat :=
  fun i => if i < 1 then .rateLimit else .apiError "boom"

/-- Attempt outcomes used by the C9 witness: an unexpected error at once. -/
def outOtherW : Nat → ApiAttempt Nat := fun _ => .otherError "oops"

/-- Witness for C9 at maxRetries = 3, baseDelay = 1: a success after one
rate limit sleeps [1 * 2 ^ 0]; full exhaustion sleeps two delays and raises
the error carrying the count 3; an APIError after one rate limit and an
immediate unexpected error raise at once. -/
theorem embedding_retry_policy_witness :
    call_embeddings_api outSuccW 3 1
      = ((List.range 1).map (fun a => 1 * 2 ^ a),
         .ok { embeddings := [5], model := "m2", tokens := 7 }) ∧
    call_embeddings_api outRateW 3 1
      = ((List.range (3 - 1)).map (fun a => 1 * 2 ^ a),
         .error ("Rate limit exceeded after " ++ toString 3 ++ " retries")) ∧
    call_embeddings_api outApiErrW 3 1
      = ((List.range 1).map (fun a => 1 * 2 ^ a),
         .error ("OpenAI API error: " ++ "boom")) ∧
    call_embeddings_api outOtherW 3 1
      = ((List.range 0).map (fun a => 1 * 2 ^ a),
         .error ("Unexpected error: " ++ "oops")) :=
  ⟨embedding_retry_policy.1 Nat outSuccW 3 1 1 _ (by decide)
      (by decide) (by decide),
   embedding_retry_policy.2.1 Nat outRateW 3 1 (by decide) (by decide),
   embedding_retry_policy.2.2.1 Nat outApiErrW 3 1 1 "boom" (by decide)
      (by decide) (by decide),
   embedding_retry_policy.2.2.2 Nat outOtherW 3 1 0 "oops" (by decide)
      (by decide) (by decide)⟩

/-! ### Executable models of the Python string methods used by the sources
(Lean's own String.startsWith / trim / … are Substring-based and do not
evaluate inside the kernel, so the embedding uses char-list versions). -/

/-- Python str.startswith. -/
def strStartsWith (s pre : String) : Bool := pre.data.isPrefixOf s.data

/-- Python str.endswith. -/
def strEndsWith (s suf : String) : Bool := suf.data.isSuffixOf s.data

/-- Python str.lower (ASCII, which is all the sources compare). -/
def strToLower (s : String) : String := String.mk (s.data.map Char.toLower)

/-- Python slicing s[n:] by characters (the sources slice off "s3://"). -/
def strDropChars (n : Nat) (s : String) : String := String.mk (s.data.drop n)

/-- Whether a character occurs in a string (used for the "/" check that
models str.split("/", 1) producing two parts). -/
def strContainsChar (s : String) (c : Char) : Bool := s.data.contains c

/-- Helper for `pyReplace`: replace every occurrence of the (non-empty)
pattern, scanning left to right; the fuel is the text length. -/
def replaceAux (pat rep : List Char) : Nat → List Char → List Char
  | 0, l => l
  | _, [] => []
  | fuel + 1, c :: cs =>
    if pat ≠ [] && pat.isPrefixOf (c :: cs) then
      rep ++ replaceAux pat rep fuel ((c :: cs).drop pat.length)
    else c :: replaceAux pat rep fuel cs

/-- Python str.replace (used for the ".pdf" removal in the default upload
title). -/
def pyReplace (s pat rep : String) : String :=
  String.mk (replaceAux pat.data rep.data s.data.length s.data)

/-! ### Storage deletes: services/storage.py

`fs` is the set of paths present on the local filesystem and `objs` the set
of S3 URIs present in the object store; `removeOk` / `clientOk` are the
outcomes of the external os.remove / boto3 delete_object calls (False means
the call raised OSError / ClientError). -/

/-- services/storage.py delete_file_from_local (lines 274-293): returns False
when the path does not exist, otherwise removes it (False if os.remove
raises). -/
def delete_file_from_local (removeOk : Bool) (fs : List String)
    (path : String) : List String × Bool :=
  if path ∉ fs then (fs, false)
  else if removeOk then (fs.filter (fun p => p ≠ path), true)
  else (fs, false)

/-- services/storage.py delete_file_from_s3 (lines 243-271): False on a
malformed URI; otherwise delete_object, which succeeds whether or not the
key exists (False only if the client raises). -/
def delete_file_from_s3 (clientOk : Bool) (objs : List String)
    (uri : String) : List String × Bool :=
  if ¬ strStartsWith uri "s3://" then (objs, false)
  else if ¬ strContainsChar (strDropChars 5 uri) '/' then (objs, false)
  else if clientOk then (objs.filter (fun p => p ≠ uri), true)
  else (objs, false)

/-- services/storage.py delete_stored_file (lines 296-309): dispatch on the
"s3://" prefix of the locator. -/
def delete_stored_file (removeOk clientOk : Bool) (fs objs : List String)
    (path : String) : (List String × List String) × Bool :=
  if strStartsWith path "s3://" then
    let r := delete_file_from_s3 clientOk objs path
    ((fs, r.1), r.2)
  else
    let r := delete_file_from_local removeOk fs path
    ((r.1, objs), r.2)

/-- C10 counterexample: on the local backend, deleting an absent file
returns False (absence is failure, not success), so deleting the same
locator twice succeeds only the first time; delete_stored_file inherits
this for non-s3 locators. -/
theorem delete_absent_local_cex :
    (delete_file_from_local true [] "data/pdfs/a.pdf").2 = false ∧
    (delete_file_from_local true ["data/pdfs/a.pdf"] "data/pdfs/a.pdf").2 = true ∧
    (delete_file_from_local true
        (delete_file_from_local true ["data/pdfs/a.pdf"] "data/pdfs/a.pdf").1
        "data/pdfs/a.pdf").2 = false ∧
    (delete_stored_file true true [] [] "data/pdfs/a.pdf").2 = false := by decide

/-- Amended C10: delete is idempotent with absence-as-success on the S3
backend only; the local backend returns False when the target is absent, so
of two consecutive deletes only the first succeeds; delete_stored_file
dispatches on the "s3://" locator prefix. -/
theorem delete_stored_file_semantics :
    (∀ (objs : List String) (uri : String), strStartsWith uri "s3://" = true →
      strContainsChar (strDropChars 5 uri) '/' = true →
      (delete_file_from_s3 true objs uri).2 = true ∧
      (delete_file_from_s3 true (delete_file_from_s3 true objs uri).1 uri).2
        = true) ∧
    (∀ (fs : List String) (path : String), path ∉ fs →
      (delete_file_from_local true fs path).2 = false) ∧
    (∀ (fs : List String) (path : String), path ∈ fs →
      (delete_file_from_local true fs path).2 = true ∧
      (delete_file_from_local true (delete_file_from_local true fs path).1
        path).2 = false) ∧
    (∀ (removeOk clientOk : Bool) (fs objs : List String) (path : String),
      strStartsWith path "s3://" = false →
      delete_stored_file removeOk clientOk fs objs path
        = (((delete_file_from_local removeOk fs path).1, objs),
           (delete_file_from_local removeOk fs path).2)) ∧
    (∀ (removeOk clientOk : Bool) (fs objs : List String) (path : String),
      strStartsWith path "s3://" = true →
      delete_stored_file removeOk clientOk fs objs path
        = ((fs, (delete_file_from_s3 clientOk objs path).1),
           (delete_file_from_s3 clientOk objs path).2)) := by
  refine ⟨?_, ?_, ?_, ?_, ?_⟩
  · intro objs uri h1 h2
    constructor <;> simp [delete_file_from_s3, h1, h2]
  · intro fs path h
    simp [delete_file_from_local, h]
  · intro fs path h
    constructor
    · simp [delete_file_from_local, h]
    · have h2 : path ∉ (delete_file_from_local true fs path).1 := by
        simp [delete_file_from_local, h, List.mem_filter]
      simp [delete_file_from_local, h, h2]
  · intro removeOk clientOk fs objs path h
    simp [delete_stored_file, h]
  · intro removeOk clientOk fs objs path h
    simp [delete_stored_file, h]

/-- Witness for the amended C10 theorem at concrete stores and locators. -/
theorem delete_stored_file_semantics_witness :
    ((delete_file_from_s3 true ["s3://b/k.pdf"] "s3://b/k.pdf").2 = true ∧
      (delete_file_from_s3 true
        (delete_file_from_s3 true ["s3://b/k.pdf"] "s3://b/k.pdf").1
        "s3://b/k.pdf").2 = true) ∧
    (delete_file_from_local true ["q.pdf"] "p.pdf").2 = false ∧
    ((delete_file_from_local true ["p.pdf"] "p.pdf").2 = true ∧
      (delete_file_from_local true
        (delete_file_from_local true ["p.pdf"] "p.pdf").1 "p.pdf").2 = false) ∧
    delete_stored_file true true ["p.pdf"] [] "p.pdf"
      = (((delete_file_from_local true ["p.pdf"] "p.pdf").1, []),
         (delete_file_from_local true ["p.pdf"] "p.pdf").2) ∧
    delete_stored_file true true [] ["s3://b/k.pdf"] "s3://b/k.pdf"
      = (([], (delete_file_from_s3 true ["s3://b/k.pdf"] "s3://b/k.pdf").1),
         (delete_file_from_s3 true ["s3://b/k.pdf"] "s3://b/k.pdf").2) :=
  ⟨delete_stored_file_semantics.1 ["s3://b/k.pdf"] "s3://b/k.pdf"
      (by decide) (by decide),
   delete_stored_file_semantics.2.1 ["q.pdf"] "p.pdf" (by decide),
   delete_stored_file_semantics.2.2.1 ["p.pdf"] "p.pdf" (by decide),
   delete_stored_file_semantics.2.2.2.1 true true ["p.pdf"] [] "p.pdf"
      (by decide),
   delete_stored_file_semantics.2.2.2.2 true true [] ["s3://b/k.pdf"]
      "s3://b/k.pdf" (by decide)⟩

/-! ### Python attribute access for the parse result

parser.py parse_pdf returns a ParsedDocument, while models/parser.py also
defines ParseResult {document, raw_response} and both pipeline entry points
read `parse_result.document` / `parse_result.raw_response`.  The pipelines
therefore take the parse call's return value as a dynamic attribute map, the
way Python does; a missing attribute is an AttributeError. -/

/-- A Python attribute value of the shapes the pipelines touch. -/
inductive PyVal where
  | pagesVal (l : List ParsedPage)
  | intVal (n : Int)
  | metaVal (m : Option (List (String × String)))
  | docVal (d : ParsedDocument)
  | rawVal (r : String)
deriving DecidableEq

/-- A Python object as its attribute map. -/
abbrev PyObj := List (String × PyVal)

/-- Python getattr: None models AttributeError. -/
def pyGetAttr (o : PyObj) (k : String) : Option PyVal := o.lookup k

/-- `parse_result.raw_response` as read by the pipelines (the raw Storm
Parse response dict, carried opaquely as a string). -/
def getRawResponse (o : PyObj) : Option String :=
  match pyGetAttr o "raw_response" with
  | some (.rawVal r) => some r
  | _ => none

/-- `parse_result.document` as read by the pipelines. -/
def getDocumentAttr (o : PyObj) : Option ParsedDocument :=
  match pyGetAttr o "document" with
  | some (.docVal d) => some d
  | _ => none

/-- The attribute map of a models/parser.py ParsedDocument - the value
parser.py parse_pdf actually returns (fields pages, total_pages, metadata). -/
def parsedDocumentObj (d : ParsedDocument) : PyObj :=
  [("pages", .pagesVal d.pages), ("total_pages", .intVal d.total_pages),
   ("metadata", .metaVal d.metadata)]

/-- The attribute map of a models/parser.py ParseResult - the shape the
pipeline use-sites (and the MagicMock objects of the tests) expect. -/
def parseResultObj (d : ParsedDocument) (raw : String) : PyObj :=
  [("document", .docVal d), ("raw_response", .rawVal raw)]

/-! ### Pipeline state, environment, events and errors -/

/-- The errors of core/exceptions.py that the pipelines route on.
DuplicateBookError, PDFReadError, StormParseAPIError and BookCreationError
are defined in core/exceptions.py; InvalidFileFormatError and IndexingError
are imported from there by the routes and services but missing from the
sources, so their shape is modelled from the spec's error taxonomy
(input-rejection and indexing-failure variants); attributeError and osError
are Python built-in exceptions; clientError is botocore's ClientError. -/
inductive PipeErr where
  | invalidFileFormat (filename : String)
  | pdfRead (path : String)
  | duplicateBook (file_path : String)
  | stormParseApi (msg : String)
  | bookCreation (msg : String)
  | clientError (msg : String)
  | attributeError (name : String)
  | osError (msg : String)
  | indexing (msg : String)
deriving DecidableEq

/-- Outcome of the INSERT of book_repository.create_book: a new id, a
UniqueViolation, or another psycopg error. -/
inductive CreateErr where
  | uniqueViolation
  | dbError (msg : String)
deriving DecidableEq

/-- The calls a pipeline run makes, in order (call events, emitted whether
or not the call succeeds). -/
inductive Ev where
  | validateCall
  | existsCheck
  | saveTempCall
  | parseCall
  | parseDone
  | s3UploadCall
  | moveLocalCall
  | copyLocalCall
  | cleanupTempCall
  | saveParsedLocalCall
  | saveParsedS3Call
  | createBookCall
  | chunkCall
  | indexBookCall
  | embedCall
  | storeChunksCall
  | updateBookCall
  | deleteChunksCall
  | deleteBookCall
  | deleteParsedS3Call
  | deleteStoredCall
deriving DecidableEq

/-- The stores a pipeline run touches: relational book records (id, title),
local parsed-result JSON files (by identifier), S3 parsed-result objects (by
book id), pdf files on disk and in S3, vector points (by owning book id) and
temp files. -/
structure St where
  books : List (Nat × String) := []
  localParsed : List String := []
  s3Parsed : List Nat := []
  localPdfs : List String := []
  s3Pdfs : List String := []
  vectors : List Nat := []
  temps : List String := []
deriving DecidableEq

/-- The configuration switch the pipelines read (core/config.py
settings.s3_enabled). -/
structure Cfg where
  s3Enabled : Bool
deriving DecidableEq

/-- Decidable equality for Except, used to evaluate the pipeline on concrete
environments. -/
instance exceptDecEq {ε α : Type} [DecidableEq ε] [DecidableEq α] :
    DecidableEq (Except ε α) := fun a b =>
  match a, b with
  | .ok x, .ok y =>
    if h : x = y then isTrue (congrArg Except.ok h)
    else isFalse (fun hh => h (Except.ok.inj hh))
  | .error x, .error y =>
    if h : x = y then isTrue (congrArg Except.error h)
    else isFalse (fun hh => h (Except.error.inj hh))
  | .ok _, .error _ => isFalse (fun hh => Except.noConfusion hh)
  | .error _, .ok _ => isFalse (fun hh => Except.noConfusion hh)

/-- Outcomes of the external calls of one pipeline run, plus the uuid names
the run generates.  A False Bool means the call raised (or, for the json
saves, returned None). -/
structure Env where
  saveTempOk : Bool := true
  parse : Except PipeErr PyObj
  s3Upload : Except Unit String := .error ()
  localJsonOk : Bool := true
  s3JsonOk : Bool := true
  createBook : Except CreateErr Nat
  embed : Except Unit (String × Nat) := .ok ("text-embedding-3-small", 0)
  storeChunksOk : Bool := true
  updateBookOk : Bool := true
  deleteChunksOk : Bool := true
  deleteBookRaises : Bool := false
  deleteS3JsonOk : Bool := true
  deleteStoredOk : Bool := true
  freshTempPath : String := "tmp/upload.pdf"
  freshTempId : String := "uuid-temp"
  freshPdfLoc : String := "data/pdfs/uuid.pdf"
deriving DecidableEq

/-! ### Upload file and local file inputs, and their validators -/

/-- The UploadFile of the route layer: filename, content type, and the
leading bytes of the payload. -/
structure UpFile where
  filename : Option String
  contentType : Option String
  header : String
deriving DecidableEq

/-- api/routes/books.py validate_pdf_file: extension, content type, and PDF
magic-number checks. -/
def validate_pdf_file (f : UpFile) : Except PipeErr Unit :=
  let filename := f.filename.getD ""
  if ¬ strEndsWith (strToLower filename) ".pdf" then
    .error (.invalidFileFormat filename)
  else
    let ct := f.contentType.getD ""
    if ct ≠ "" && ct ≠ "application/pdf" && ct ≠ "application/octet-stream" then
      .error (.invalidFileFormat filename)
    else if ¬ strStartsWith f.header "%PDF-" then
      .error (.invalidFileFormat filename)
    else .ok ()

/-- A local file as the batch indexer sees it: its path, basename, stem,
whether it exists and is a regular file, whether opening it succeeds, and
its leading bytes. -/
structure LocalFile where
  path : String
  name : String
  stem : String
  existsOnDisk : Bool
  isFile : Bool
  readOk : Bool
  header : String
deriving DecidableEq

/-- services/batch_indexer.py validate_pdf_file_path: existence, regular
file, extension, readability and PDF magic-number checks. -/
def validate_pdf_file_path (f : LocalFile) : Except PipeErr Unit :=
  if ¬ f.existsOnDisk then .error (.pdfRead f.path)
  else if ¬ f.isFile then .error (.pdfRead f.path)
  else if ¬ strEndsWith (strToLower f.name) ".pdf" then
    .error (.invalidFileFormat f.name)
  else if ¬ f.readOk then .error (.pdfRead f.path)
  else if ¬ strStartsWith f.header "%PDF-" then
    .error (.invalidFileFormat f.name)
  else .ok ()

/-- Modelled from the spec: `book_repository.exists_by_title` is awaited by
index_local_pdf (batch_indexer.py line 151) and mocked by its tests, but no
definition of it appears anywhere under the repository sources
(book_repository.py defines only create/get/delete/update and
repositories/init exports no such name).  Per the spec's duplicate check -
"look up an existing record by title" - it reports whether a relational book
record with the given title exists. -/
def exists_by_title (st : St) (title : String) : Bool :=
  st.books.any (fun p => p.2 == title)

/-! ### Repository and storage operations over the pipeline state -/

/-- repositories/book_repository.py create_book: INSERT returning the new
id; a UniqueViolation becomes DuplicateBookError carrying the file_path, any
other psycopg error becomes BookCreationError. -/
def create_book (env : Env) (title file_path : String) (st : St) :
    St × Except PipeErr Nat :=
  match env.createBook with
  | .ok bid => ({ st with books := (bid, title) :: st.books }, .ok bid)
  | .error .uniqueViolation => (st, .error (.duplicateBook file_path))
  | .error (.dbError m) => (st, .error (.bookCreation ("Database error: " ++ m)))

/-- repositories/book_repository.py delete_book: DELETE by id (all rows with
that id), returning whether a row was deleted; may itself raise. -/
def delete_book (env : Env) (st : St) (book_id : Nat) : St × Except Unit Bool :=
  if env.deleteBookRaises then (st, .error ())
  else ({ st with books := st.books.filter (fun p => p.1 ≠ book_id) },
        .ok (st.books.any (fun p => p.1 == book_id)))

/-- services/storage.py save_parsed_result_to_local: write
data/parsed/{identifier}.json, returning the path, or None on failure. -/
def save_parsed_result_to_local (env : Env) (st : St) (identifier : String) :
    St × List Ev × Option String :=
  if env.localJsonOk then
    ({ st with localParsed := identifier :: st.localParsed },
     [.saveParsedLocalCall], some ("data/parsed/" ++ identifier ++ ".json"))
  else (st, [.saveParsedLocalCall], none)

/-- services/storage.py save_parsed_result_to_s3: None when S3 is disabled
or the put fails, else the S3 URI of parsed/{book_id}.json. -/
def save_parsed_result_to_s3 (cfg : Cfg) (env : Env) (st : St)
    (book_id : Nat) : St × List Ev × Option String :=
  if ¬ cfg.s3Enabled then (st, [.saveParsedS3Call], none)
  else if env.s3JsonOk then
    ({ st with s3Parsed := book_id :: st.s3Parsed },
     [.saveParsedS3Call],
     some ("s3://bucket/parsed/" ++ toString book_id ++ ".json"))
  else (st, [.saveParsedS3Call], none)

/-- services/storage.py save_parsed_result: always save locally first as the
backup, then try S3 when enabled, preferring the S3 path in the result. -/
def save_parsed_result (cfg : Cfg) (env : Env) (st : St) (book_id : Nat) :
    St × List Ev × Option String :=
  let p1 := save_parsed_result_to_local env st (toString book_id)
  if cfg.s3Enabled then
    let p2 := save_parsed_result_to_s3 cfg env p1.1 book_id
    match p2.2.2 with
    | some s3p => (p2.1, p1.2.1 ++ p2.2.1, some s3p)
    | none => (p2.1, p1.2.1 ++ p2.2.1, p1.2.2)
  else (p1.1, p1.2.1, p1.2.2)

/-- services/storage.py delete_parsed_result_from_s3: True when S3 is
disabled or the delete succeeds (also when the object never existed). -/
def delete_parsed_result_from_s3 (cfg : Cfg) (env : Env) (st : St)
    (book_id : Nat) : St × Bool :=
  if ¬ cfg.s3Enabled then (st, true)
  else if env.deleteS3JsonOk then
    ({ st with s3Parsed := st.s3Parsed.filter (fun b => b ≠ book_id) }, true)
  else (st, false)

/-- services/batch_indexer.py copy_to_local_storage: copy the source to a
fresh uuid name under the pdf storage dir. -/
def copy_to_local_storage (env : Env) (st : St) : St × String :=
  ({ st with localPdfs := env.freshPdfLoc :: st.localPdfs }, env.freshPdfLoc)

/-- services/storage.py move_temp_to_local_storage. -/
def move_temp_to_local_storage (env : Env) (st : St) (temp : String) :
    St × String :=
  ({ st with temps := st.temps.filter (fun t => t ≠ temp),
             localPdfs := env.freshPdfLoc :: st.localPdfs }, env.freshPdfLoc)

/-- services/storage.py cleanup_temp_file: remove the temp file if one is
tracked (a None silently no-ops). -/
def cleanup_temp_file (st : St) (temp : Option String) : St × List Ev :=
  match temp with
  | none => (st, [])
  | some t => ({ st with temps := st.temps.filter (fun x => x ≠ t) },
               [.cleanupTempCall])

/-- services/storage.py delete_stored_file applied to the pipeline state. -/
def deleteStoredFileSt (env : Env) (st : St) (loc : String) :
    St × List Ev × Bool :=
  let r := delete_stored_file env.deleteStoredOk env.deleteStoredOk
    st.localPdfs st.s3Pdfs loc
  ({ st with localPdfs := r.1.1, s3Pdfs := r.1.2 }, [.deleteStoredCall], r.2)

/-- repositories/vector_repository.py delete_chunks_by_book_id as called by
the index_book rollback (its own failure is logged and swallowed). -/
def rollback_chunks (env : Env) (book_id : Nat) (st : St) : St × List Ev :=
  if env.deleteChunksOk then
    ({ st with vectors := st.vectors.filter (fun b => b ≠ book_id) },
     [.deleteChunksCall])
  else (st, [.deleteChunksCall])

/-- services/indexer.py index_book: an empty ChunkedDocument short-circuits
to a zero-chunks success with no embedding or vector-store call; otherwise
embed, store the vectors, stamp the book record; any failure rolls back the
stored vectors and raises IndexingError. -/
def index_book (env : Env) (book_id : Nat)
    (chunked_document : ChunkedDocument) (st : St) :
    St × List Ev × Except String Nat :=
  if chunked_document.chunks.isEmpty then (st, [], .ok 0)
  else
    match env.embed with
    | .error _ =>
      let p := rollback_chunks env book_id st
      (p.1, [.embedCall] ++ p.2,
       .error ("Failed to index book " ++ toString book_id))
    | .ok _ =>
      if env.storeChunksOk then
        let st1 := { st with vectors := book_id :: st.vectors }
        if env.updateBookOk then
          (st1, [.embedCall, .storeChunksCall, .updateBookCall],
           .ok chunked_document.chunks.length)
        else
          let p := rollback_chunks env book_id st1
          (p.1, [.embedCall, .storeChunksCall, .updateBookCall] ++ p.2,
           .error ("Failed to index book " ++ toString book_id))
      else
        let p := rollback_chunks env book_id st
        (p.1, [.embedCall, .storeChunksCall] ++ p.2,
         .error ("Failed to index book " ++ toString book_id))

/-! ### Pipeline outcomes -/

/-- The route-level outcome of upload_book: the IndexingResponse on success,
or an HTTPException with its status and error code. -/
inductive UploadOutcome where
  | indexed (book_id : Nat) (chunks_count : Nat)
  | httpErr (status : Nat) (code : String)
deriving DecidableEq

/-- Whether an upload outcome is the successful indexed response. -/
def UploadOutcome.isIndexed : UploadOutcome → Bool
  | .indexed _ _ => true
  | _ => false

/-- services/batch_indexer.py BatchIndexingResult. -/
structure BatchIndexingResult where
  book_id : Option Nat := none
  title : String
  chunks_count : Nat := 0
  file_path : Option String := none
  status : String := "indexed"
  skipped : Bool := false
  skip_reason : Option String := none
deriving DecidableEq

/-- The outcome of index_local_pdf: a returned result or a raised error. -/
inductive BatchOutcome where
  | ok (r : BatchIndexingResult)
  | err (e : PipeErr)
deriving DecidableEq

/-- Whether a batch outcome is a successfully indexed result. -/
def BatchOutcome.isIndexedOk : BatchOutcome → Bool
  | .ok r => r.status == "indexed"
  | .err _ => false

/-! ### Compensation and exception routing -/

/-- The shared cleanup block of the IndexingError / generic except clauses
(books.py lines 205-265, batch_indexer.py lines 205-238): delete the book
record if one was created (its own failure swallowed), delete the S3 copy of
the parse result, delete the promoted file.  `gateS3` is True for
upload_book (which calls delete_parsed_result_from_s3 unconditionally) and
settings.s3_enabled for the batch path (which gates the call); the function
itself no-ops when S3 is disabled, so the two differ only in whether the
call is made. -/
def pipeline_cleanup (cfg : Cfg) (env : Env) (gateS3 : Bool)
    (bookId : Option Nat) (stored : Option String) (st : St) : St × List Ev :=
  let p1 : St × List Ev :=
    match bookId with
    | none => (st, [])
    | some bid =>
      let d := delete_book env st bid
      if gateS3 then
        let q := delete_parsed_result_from_s3 cfg env d.1 bid
        (q.1, [.deleteBookCall, .deleteParsedS3Call])
      else (d.1, [.deleteBookCall])
  let p2 : St × List Ev :=
    match stored with
    | none => (p1.1, [])
    | some loc =>
      let r := deleteStoredFileSt env p1.1 loc
      (r.1, r.2.1)
  (p2.1, p1.2 ++ p2.2)

/-- The except clauses of upload_book (books.py lines 179-265):
InvalidFileFormatError is 400, DuplicateBookError 409 (both after temp
cleanup only), IndexingError is 500 INDEXING_FAILED after full compensation,
anything else is 500 INTERNAL_ERROR after full compensation. -/
def upload_route_error (cfg : Cfg) (env : Env) (temp : Option String)
    (bookId : Option Nat) (stored : Option String) (st : St) (evs : List Ev)
    (e : PipeErr) : St × List Ev × UploadOutcome :=
  match e with
  | .invalidFileFormat _ =>
    let c := cleanup_temp_file st temp
    (c.1, evs ++ c.2, .httpErr 400 "INVALID_FILE_FORMAT")
  | .duplicateBook _ =>
    let c := cleanup_temp_file st temp
    (c.1, evs ++ c.2, .httpErr 409 "DUPLICATE_BOOK")
  | .indexing _ =>
    let c := cleanup_temp_file st temp
    let p := pipeline_cleanup cfg env true bookId stored c.1
    (p.1, evs ++ c.2 ++ p.2, .httpErr 500 "INDEXING_FAILED")
  | _ =>
    let c := cleanup_temp_file st temp
    let p := pipeline_cleanup cfg env true bookId stored c.1
    (p.1, evs ++ c.2 ++ p.2, .httpErr 500 "INTERNAL_ERROR")

/-- The except clauses of index_local_pdf (batch_indexer.py lines 201-238):
InvalidFileFormatError, PDFReadError and DuplicateBookError re-raise with no
cleanup; IndexingError re-raises after compensation; anything else is
wrapped into IndexingError after compensation. -/
def batch_route_error (cfg : Cfg) (env : Env) (fpath : String)
    (bookId : Option Nat) (stored : Option String) (st : St) (evs : List Ev)
    (e : PipeErr) : St × List Ev × BatchOutcome :=
  match e with
  | .invalidFileFormat f => (st, evs, .err (.invalidFileFormat f))
  | .pdfRead p => (st, evs, .err (.pdfRead p))
  | .duplicateBook fp => (st, evs, .err (.duplicateBook fp))
  | .indexing m =>
    let p := pipeline_cleanup cfg env cfg.s3Enabled bookId stored st
    (p.1, evs ++ p.2, .err (.indexing m))
  | _ =>
    let p := pipeline_cleanup cfg env cfg.s3Enabled bookId stored st
    (p.1, evs ++ p.2, .err (.indexing ("Failed to index " ++ fpath)))

/-! ### The two pipeline entry points -/

/-- api/routes/books.py upload_book (lines 116-265): validate, save to temp,
parse, save the raw parse response locally, promote the file to permanent
storage (S3 with local fallback, or local), create the book record, save the
parse result under the book id, chunk with the sentence-aware chunker
(books.py line 20), index, and route every exception per
`upload_route_error`. -/
def upload_book (cfg : Cfg) (env : Env) (splitText : String → List String)
    (countTokens : String → Nat) (f : UpFile) (title author : Option String)
    (st : St) : St × List Ev × UploadOutcome :=
  match validate_pdf_file f with
  | .error e => upload_route_error cfg env none none none st [.validateCall] e
  | .ok _ =>
    if ¬ env.saveTempOk then
      upload_route_error cfg env none none none st
        [.validateCall, .saveTempCall] (.osError "save_to_temp_for_indexing")
    else
      let st1 := { st with temps := env.freshTempPath :: st.temps }
      let evs1 : List Ev := [.validateCall, .saveTempCall]
      match env.parse with
      | .error e =>
        upload_route_error cfg env (some env.freshTempPath) none none st1
          (evs1 ++ [.parseCall]) e
      | .ok obj =>
        let evs2 := evs1 ++ [.parseCall, .parseDone]
        match getRawResponse obj with
        | none =>
          upload_route_error cfg env (some env.freshTempPath) none none st1
            evs2 (.attributeError "raw_response")
        | some _ =>
          let p1 := save_parsed_result_to_local env st1 env.freshTempId
          let evs3 := evs2 ++ p1.2.1
          let cont : St → String → List Ev → St × List Ev × UploadOutcome :=
            fun st2 stored evs =>
              let bookTitle := match title with
                | some t => t
                | none => pyReplace (f.filename.getD "Untitled") ".pdf" ""
              let cb := create_book env bookTitle stored st2
              match cb.2 with
              | .error e =>
                upload_route_error cfg env none none (some stored) st2
                  (evs ++ [.createBookCall]) e
              | .ok bid =>
                let evs4 := evs ++ [.createBookCall]
                let p2 := save_parsed_result cfg env cb.1 bid
                let evs5 := evs4 ++ p2.2.1
                match getDocumentAttr obj with
                | none =>
                  upload_route_error cfg env none (some bid) (some stored)
                    p2.1 evs5 (.attributeError "document")
                | some d =>
                  let cd := sentence_chunk_text splitText countTokens d
                  let ib := index_book env bid cd p2.1
                  let evs6 := evs5 ++ [.chunkCall, .indexBookCall] ++ ib.2.1
                  match ib.2.2 with
                  | .error m =>
                    upload_route_error cfg env none (some bid) (some stored)
                      ib.1 evs6 (.indexing m)
                  | .ok n => (ib.1, evs6, .indexed bid n)
          if cfg.s3Enabled then
            match env.s3Upload with
            | .ok uri =>
              let st2 := { p1.1 with s3Pdfs := uri :: p1.1.s3Pdfs }
              let c := cleanup_temp_file st2 (some env.freshTempPath)
              cont c.1 uri (evs3 ++ [.s3UploadCall] ++ c.2)
            | .error _ =>
              let m := move_temp_to_local_storage env p1.1 env.freshTempPath
              cont m.1 m.2 (evs3 ++ [.s3UploadCall, .moveLocalCall])
          else
            let m := move_temp_to_local_storage env p1.1 env.freshTempPath
            cont m.1 m.2 (evs3 ++ [.moveLocalCall])

/-- services/batch_indexer.py index_local_pdf (lines 107-238): validate,
optionally skip duplicates by title, parse, promote to permanent storage
(S3 or a local copy, no fallback), create the book record, optionally save
the raw parse response to S3 (never locally), chunk with the token-based
chunker, index, and route every exception per `batch_route_error`. -/
def index_local_pdf (cfg : Cfg) (env : Env) (tok : String → List Nat)
    (detok : List Nat → String) (f : LocalFile) (title author : Option String)
    (skip_existing : Bool) (st : St) : St × List Ev × BatchOutcome :=
  let book_title := title.getD f.stem
  match validate_pdf_file_path f with
  | .error e => batch_route_error cfg env f.path none none st [.validateCall] e
  | .ok _ =>
    if skip_existing && exists_by_title st book_title then
      (st, [.validateCall, .existsCheck],
       .ok { book_id := none, title := book_title, chunks_count := 0,
             file_path := none, status := "skipped", skipped := true,
             skip_reason := some ("Book with title " ++ book_title
               ++ " already exists") })
    else
      let evs0 := [Ev.validateCall]
        ++ (if skip_existing then [Ev.existsCheck] else [])
      match env.parse with
      | .error e =>
        batch_route_error cfg env f.path none none st (evs0 ++ [.parseCall]) e
      | .ok obj =>
        let evs1 := evs0 ++ [.parseCall, .parseDone]
        let cont : St → String → List Ev → St × List Ev × BatchOutcome :=
          fun st2 stored evs =>
            let cb := create_book env book_title stored st2
            match cb.2 with
            | .error e =>
              batch_route_error cfg env f.path none (some stored) st2
                (evs ++ [.createBookCall]) e
            | .ok bid =>
              let evs4 := evs ++ [.createBookCall]
              let afterSave : St → List Ev → St × List Ev × BatchOutcome :=
                fun st4 evs5 =>
                  match getDocumentAttr obj with
                  | none =>
                    batch_route_error cfg env f.path (some bid) (some stored)
                      st4 evs5 (.attributeError "document")
                  | some d =>
                    let cd := chunk_text tok detok d
                    let ib := index_book env bid cd st4
                    let evs6 := evs5 ++ [.chunkCall, .indexBookCall] ++ ib.2.1
                    match ib.2.2 with
                    | .error m =>
                      batch_route_error cfg env f.path (some bid) (some stored)
                        ib.1 evs6 (.indexing m)
                    | .ok n =>
                      (ib.1, evs6,
                       .ok { book_id := some bid, title := book_title,
                             chunks_count := n, file_path := some stored,
                             status := "indexed" })
              if cfg.s3Enabled then
                match getRawResponse obj with
                | none =>
                  batch_route_error cfg env f.path (some bid) (some stored)
                    cb.1 evs4 (.attributeError "raw_response")
                | some _ =>
                  let q := save_parsed_result_to_s3 cfg env cb.1 bid
                  afterSave q.1 (evs4 ++ q.2.1)
              else afterSave cb.1 evs4
        if cfg.s3Enabled then
          match env.s3Upload with
          | .ok uri =>
            cont { st with s3Pdfs := uri :: st.s3Pdfs } uri
              (evs1 ++ [.s3UploadCall])
          | .error _ =>
            batch_route_error cfg env f.path none none st
              (evs1 ++ [.s3UploadCall]) (.clientError "upload failed")
        else
          let cp := copy_to_local_storage env st
          cont cp.1 cp.2 (evs1 ++ [.copyLocalCall])

/-! ### Trace-order predicates and event lemmas -/

/-- Scan a trace for `target` before `stop`: true if the trace ends or
reaches `target` without having passed `stop`, false if `stop` comes first.
`scanBefore t s tr = true` with `s ∈ tr` says every `s` is preceded by a
`t`. -/
def scanBefore (target stop : Ev) : List Ev → Bool
  | [] => true
  | e :: rest =>
    if e = stop then false
    else if e = target then true
    else scanBefore target stop rest

/-- A trace that never reaches `stop` scans true. -/
theorem scanBefore_true_of_not_mem (target stop : Ev) :
    ∀ l : List Ev, stop ∉ l → scanBefore target stop l = true := by
  intro l
  induction l with
  | nil => intro _; rfl
  | cons e rest ih =>
    intro h
    simp only [List.mem_cons] at h
    push_neg at h
    simp only [scanBefore]
    rw [if_neg (fun hh => h.1 hh.symm)]
    by_cases ht : e = target
    · rw [if_pos ht]
    · rw [if_neg ht]
      exact ih h.2

/-- A prefix that contains `target` but not `stop` makes the whole trace
scan true. -/
theorem scanBefore_append_target (target stop : Ev) :
    ∀ (l1 l2 : List Ev), stop ∉ l1 → target ∈ l1 →
      scanBefore target stop (l1 ++ l2) = true := by
  intro l1
  induction l1 with
  | nil => intro l2 _ ht; simp at ht
  | cons e rest ih =>
    intro l2 hs ht
    simp only [List.mem_cons] at hs ht
    push_neg at hs
    simp only [List.cons_append, scanBefore]
    rw [if_neg (fun hh => hs.1 hh.symm)]
    by_cases he : e = target
    · rw [if_pos he]
    · rw [if_neg he]
      rcases ht with ht | ht
      · exact absurd ht.symm he
      · exact ih l2 hs.2 ht

/-- The events of cleanup_temp_file. -/
theorem cleanup_temp_events (st : St) (temp : Option String) :
    ∀ e ∈ (cleanup_temp_file st temp).2, e = Ev.cleanupTempCall := by
  intro e he
  cases temp with
  | none => simp [cleanup_temp_file] at he
  | some t =>
    simp [cleanup_temp_file] at he
    exact he

/-- The events of the compensation block are delete calls only. -/
theorem pipeline_cleanup_events (cfg : Cfg) (env : Env) (gateS3 : Bool)
    (bookId : Option Nat) (stored : Option String) (st : St) :
    ∀ e ∈ (pipeline_cleanup cfg env gateS3 bookId stored st).2,
      e = Ev.deleteBookCall ∨ e = Ev.deleteParsedS3Call
        ∨ e = Ev.deleteStoredCall := by
  intro e he
  rcases bookId with _ | bid <;> rcases stored with _ | loc <;>
    by_cases hg : gateS3 <;>
    simp [pipeline_cleanup, deleteStoredFileSt, hg] at he <;>
    tauto

/-- The events of index_book are embedding, vector-store, update and
rollback calls only. -/
theorem index_book_events (env : Env) (book_id : Nat)
    (cd : ChunkedDocument) (st : St) :
    ∀ e ∈ (index_book env book_id cd st).2.1,
      e = Ev.embedCall ∨ e = Ev.storeChunksCall ∨ e = Ev.updateBookCall
        ∨ e = Ev.deleteChunksCall := by
  intro e he
  by_cases h1 : cd.chunks.isEmpty <;>
    rcases h2 : env.embed with m | p <;>
    by_cases h3 : env.storeChunksOk <;>
    by_cases h4 : env.updateBookOk <;>
    by_cases h5 : env.deleteChunksOk <;>
    simp [index_book, rollback_chunks, h1, h2, h3, h4, h5] at he <;>
    tauto

/-- The events appended by upload_route_error beyond the trace it is given
are temp-cleanup and delete calls only. -/
theorem upload_route_error_events (cfg : Cfg) (env : Env)
    (temp : Option String) (bookId : Option Nat) (stored : Option String)
    (st : St) (evs : List Ev) (e : PipeErr) :
    ∀ x ∈ (upload_route_error cfg env temp bookId stored st evs e).2.1,
      x ∈ evs ∨ x = Ev.cleanupTempCall ∨ x = Ev.deleteBookCall
        ∨ x = Ev.deleteParsedS3Call ∨ x = Ev.deleteStoredCall := by
  intro x hx
  rcases e <;>
    simp only [upload_route_error, List.mem_append] at hx <;>
    first
    | exact Or.inl hx
    | (rcases hx with hx | hx
       · exact Or.inl hx
       · have h := cleanup_temp_events _ _ _ hx
         tauto)
    | (rcases hx with (hx | hx) | hx
       · exact Or.inl hx
       · have h := cleanup_temp_events _ _ _ hx
         tauto
       · have h := pipeline_cleanup_events _ _ _ _ _ _ _ hx
         tauto)

/-- The events appended by batch_route_error beyond the trace it is given
are delete calls only. -/
theorem batch_route_error_events (cfg : Cfg) (env : Env) (fpath : String)
    (bookId : Option Nat) (stored : Option String) (st : St) (evs : List Ev)
    (e : PipeErr) :
    ∀ x ∈ (batch_route_error cfg env fpath bookId stored st evs e).2.1,
      x ∈ evs ∨ x = Ev.deleteBookCall ∨ x = Ev.deleteParsedS3Call
        ∨ x = Ev.deleteStoredCall := by
  intro x hx
  rcases e <;>
    simp only [batch_route_error, List.mem_append] at hx <;>
    first
    | exact Or.inl hx
    | (rcases hx with hx | hx
       · exact Or.inl hx
       · have h := pipeline_cleanup_events _ _ _ _ _ _ _ hx
         tauto)

/-- Event component of save_parsed_result_to_local. -/
theorem save_parsed_result_to_local_events (env : Env) (st : St) (i : String) :
    (save_parsed_result_to_local env st i).2.1 = [Ev.saveParsedLocalCall] := by
  unfold save_parsed_result_to_local
  split <;> rfl

/-- Event component of save_parsed_result_to_s3. -/
theorem save_parsed_result_to_s3_events (cfg : Cfg) (env : Env) (st : St)
    (bid : Nat) :
    (save_parsed_result_to_s3 cfg env st bid).2.1 = [Ev.saveParsedS3Call] := by
  unfold save_parsed_result_to_s3
  split
  · rfl
  · split <;> rfl

/-- In every upload_book run, any create_book call is preceded by an attempt
to save the raw parse response to local storage. -/
theorem upload_save_before_create (cfg : Cfg) (env : Env)
    (sp : String → List String) (ct : String → Nat) (f : UpFile)
    (t a : Option String) (st : St) :
    scanBefore .saveParsedLocalCall .createBookCall
      (upload_book cfg env sp ct f t a st).2.1 = true := by
  cases hv : validate_pdf_file f with
  | error e =>
    simp only [upload_book, hv]
    apply scanBefore_true_of_not_mem
    intro hmem
    have h := upload_route_error_events _ _ _ _ _ _ _ _ _ hmem
    simp at h
  | ok u =>
    simp only [upload_book, hv]
    by_cases hst : env.saveTempOk
    · rw [if_neg (by simp [hst])]
      cases hp : env.parse with
      | error e =>
        simp only [hp]
        apply scanBefore_true_of_not_mem
        intro hmem
        have h := upload_route_error_events _ _ _ _ _ _ _ _ _ hmem
        simp at h
      | ok obj =>
        simp only [hp]
        cases hr : getRawResponse obj with
        | none =>
          simp only [hr]
          apply scanBefore_true_of_not_mem
          intro hmem
          have h := upload_route_error_events _ _ _ _ _ _ _ _ _ hmem
          simp at h
        | some raw =>
          simp only [hr, save_parsed_result_to_local_events]
          repeat' split
          all_goals try simp only [upload_route_error, cleanup_temp_file,
            pipeline_cleanup, save_parsed_result, deleteStoredFileSt]
          all_goals repeat' split
          all_goals
            simp +decide [scanBefore, List.append_assoc, List.cons_append,
              List.nil_append, save_parsed_result_to_local_events,
              save_parsed_result_to_s3_events]
    · rw [if_pos (by simp [hst])]
      apply scanBefore_true_of_not_mem
      intro hmem
      have h := upload_route_error_events _ _ _ _ _ _ _ _ _ hmem
      simp at h

/-- index_book never attempts a local save of the parse result. -/
theorem index_book_no_save (env : Env) (book_id : Nat) (cd : ChunkedDocument)
    (st : St) : Ev.saveParsedLocalCall ∉ (index_book env book_id cd st).2.1 := by
  intro h
  have hh := index_book_events env book_id cd st _ h
  simp at hh

/-- The compensation block never attempts a local save of the parse result. -/
theorem pipeline_cleanup_no_save (cfg : Cfg) (env : Env) (gateS3 : Bool)
    (bookId : Option Nat) (stored : Option String) (st : St) :
    Ev.saveParsedLocalCall ∉ (pipeline_cleanup cfg env gateS3 bookId stored st).2 := by
  intro h
  have hh := pipeline_cleanup_events cfg env gateS3 bookId stored st _ h
  simp at hh

/-- batch_route_error adds no local-save event to a trace without one. -/
theorem batch_route_no_save (cfg : Cfg) (env : Env) (fpath : String)
    (bookId : Option Nat) (stored : Option String) (st : St) (evs : List Ev)
    (e : PipeErr) (h : Ev.saveParsedLocalCall ∉ evs) :
    Ev.saveParsedLocalCall ∉ (batch_route_error cfg env fpath bookId stored st evs e).2.1 := by
  intro hmem
  rcases batch_route_error_events _ _ _ _ _ _ _ _ _ hmem with h1 | h1 | h1 | h1
  · exact h h1
  all_goals simp at h1

/-- In every upload_book run, any create_book call comes after the parse
call completed. -/
theorem upload_parse_before_create (cfg : Cfg) (env : Env)
    (sp : String → List String) (ct : String → Nat) (f : UpFile)
    (t a : Option String) (st : St) :
    scanBefore .parseDone .createBookCall
      (upload_book cfg env sp ct f t a st).2.1 = true := by
  cases hv : validate_pdf_file f with
  | error e =>
    simp only [upload_book, hv]
    apply scanBefore_true_of_not_mem
    intro hmem
    have h := upload_route_error_events _ _ _ _ _ _ _ _ _ hmem
    simp at h
  | ok u =>
    simp only [upload_book, hv]
    by_cases hst : env.saveTempOk
    · rw [if_neg (by simp [hst])]
      cases hp : env.parse with
      | error e =>
        simp only [hp]
        apply scanBefore_true_of_not_mem
        intro hmem
        have h := upload_route_error_events _ _ _ _ _ _ _ _ _ hmem
        simp at h
      | ok obj =>
        simp only [hp, save_parsed_result_to_local_events]
        repeat' split
        all_goals try simp only [upload_route_error, cleanup_temp_file,
          pipeline_cleanup, save_parsed_result, deleteStoredFileSt]
        all_goals repeat' split
        all_goals
          simp +decide [scanBefore, List.append_assoc, List.cons_append,
            List.nil_append, save_parsed_result_to_local_events,
            save_parsed_result_to_s3_events]
    · rw [if_pos (by simp [hst])]
      apply scanBefore_true_of_not_mem
      intro hmem
      have h := upload_route_error_events _ _ _ _ _ _ _ _ _ hmem
      simp at h

/-- In every index_local_pdf run, any create_book call comes after the parse
call completed. -/
theorem batch_parse_before_create (cfg : Cfg) (env : Env)
    (tok : String → List Nat) (detok : List Nat → String) (f : LocalFile)
    (t a : Option String) (se : Bool) (st : St) :
    scanBefore .parseDone .createBookCall
      (index_local_pdf cfg env tok detok f t a se st).2.1 = true := by
  cases hv : validate_pdf_file_path f with
  | error e =>
    simp only [index_local_pdf, hv]
    apply scanBefore_true_of_not_mem
    intro hmem
    have h := batch_route_error_events _ _ _ _ _ _ _ _ _ hmem
    simp at h
  | ok u =>
    simp only [index_local_pdf, hv]
    by_cases hsk : (se && exists_by_title st (t.getD f.stem)) = true
    · rw [if_pos hsk]
      rfl
    · rw [if_neg hsk]
      cases hp : env.parse with
      | error e =>
        simp only [hp]
        apply scanBefore_true_of_not_mem
        intro hmem
        have h := batch_route_error_events _ _ _ _ _ _ _ _ _ hmem
        simp at h
      | ok obj =>
        simp only [hp, save_parsed_result_to_s3_events]
        repeat' split
        all_goals try simp only [batch_route_error, pipeline_cleanup,
          deleteStoredFileSt]
        all_goals repeat' split
        all_goals
          simp +decide [scanBefore, List.append_assoc, List.cons_append,
            List.nil_append, save_parsed_result_to_s3_events]

/-- index_local_pdf never attempts to save the raw parse response to local
storage, in any run. -/
theorem batch_never_saves_local (cfg : Cfg) (env : Env)
    (tok : String → List Nat) (detok : List Nat → String) (f : LocalFile)
    (t a : Option String) (se : Bool) (st : St) :
    Ev.saveParsedLocalCall ∉ (index_local_pdf cfg env tok detok f t a se st).2.1 := by
  cases hv : validate_pdf_file_path f with
  | error e =>
    simp only [index_local_pdf, hv]
    exact batch_route_no_save _ _ _ _ _ _ _ _ (by simp)
  | ok u =>
    simp only [index_local_pdf, hv]
    repeat' split
    all_goals first
      | (apply batch_route_no_save
         simp +decide [List.mem_append, List.mem_cons,
           save_parsed_result_to_s3_events, index_book_no_save])
      | simp +decide [List.mem_append, List.mem_cons,
          save_parsed_result_to_s3_events, index_book_no_save]

/-- The initial empty pipeline state. -/
def st0 : St := {}

/-- A valid local pdf file, used by counterexamples and witnesses. -/
def fileB : LocalFile :=
  { path := "books/b.pdf", name := "b.pdf", stem := "b", existsOnDisk := true,
    isFile := true, readOk := true, header := "%PDF-1.4" }

/-- A valid uploaded pdf file, used by counterexamples and witnesses. -/
def fileU : UpFile :=
  { filename := some "b.pdf", contentType := some "application/pdf",
    header := "%PDF-1.4" }

/-- Environment for the C1 counterexample: parsing succeeds (with a
ParseResult-shaped object over an empty document), create_book returns id 1,
and every other external call succeeds. -/
def cexEnvC1 : Env :=
  { parse := .ok (parseResultObj { pages := [], total_pages := 0 } "raw"),
    createBook := .ok 1 }

/-- C1 counterexample: a successful index_local_pdf run calls create_book
without any prior (or any) attempt to save the raw parse response to local
storage, refuting the claim for the batch entry point. -/
theorem parse_before_commit_cex :
    Ev.createBookCall ∈
      (index_local_pdf { s3Enabled := false } cexEnvC1 tokC detokC fileB
        none none false st0).2.1 ∧
    scanBefore .saveParsedLocalCall .createBookCall
      (index_local_pdf { s3Enabled := false } cexEnvC1 tokC detokC fileB
        none none false st0).2.1 = false := by decide

/-- Amended C1: in every upload_book run the parse completes and a local
save of the raw response is attempted before any create_book call, while in
every index_local_pdf run the parse completes before any create_book call
but a local save of the raw response is never attempted at all. -/
theorem parse_before_commit_amended :
    (∀ (cfg : Cfg) (env : Env) (sp : String → List String)
      (ct : String → Nat) (f : UpFile) (t a : Option String) (st : St),
      scanBefore .saveParsedLocalCall .createBookCall
        (upload_book cfg env sp ct f t a st).2.1 = true) ∧
    (∀ (cfg : Cfg) (env : Env) (sp : String → List String)
      (ct : String → Nat) (f : UpFile) (t a : Option String) (st : St),
      scanBefore .parseDone .createBookCall
        (upload_book cfg env sp ct f t a st).2.1 = true) ∧
    (∀ (cfg : Cfg) (env : Env) (tok : String → List Nat)
      (detok : List Nat → String) (f : LocalFile) (t a : Option String)
      (se : Bool) (st : St),
      scanBefore .parseDone .createBookCall
        (index_local_pdf cfg env tok detok f t a se st).2.1 = true) ∧
    (∀ (cfg : Cfg) (env : Env) (tok : String → List Nat)
      (detok : List Nat → String) (f : LocalFile) (t a : Option String)
      (se : Bool) (st : St),
      Ev.saveParsedLocalCall ∉
        (index_local_pdf cfg env tok detok f t a se st).2.1) :=
  ⟨upload_save_before_create, upload_parse_before_create,
   batch_parse_before_create, batch_never_saves_local⟩

/-- C4: with skip_existing=true and the title already present, the run
returns the skipped (non-error) outcome with book_id None and never calls
the parse service. -/
theorem skip_existing_short_circuit (cfg : Cfg) (env : Env)
    (tok : String → List Nat) (detok : List Nat → String) (f : LocalFile)
    (t a : Option String) (st : St)
    (hval : validate_pdf_file_path f = .ok ())
    (hex : exists_by_title st (t.getD f.stem) = true) :
    index_local_pdf cfg env tok detok f t a true st
      = (st, [.validateCall, .existsCheck],
         .ok { book_id := none, title := t.getD f.stem, chunks_count := 0,
               file_path := none, status := "skipped", skipped := true,
               skip_reason := some ("Book with title " ++ (t.getD f.stem)
                 ++ " already exists") }) ∧
    Ev.parseCall ∉ (index_local_pdf cfg env tok detok f t a true st).2.1 := by
  have hrun : index_local_pdf cfg env tok detok f t a true st
      = (st, [.validateCall, .existsCheck],
         .ok { book_id := none, title := t.getD f.stem, chunks_count := 0,
               file_path := none, status := "skipped", skipped := true,
               skip_reason := some ("Book with title " ++ (t.getD f.stem)
                 ++ " already exists") }) := by
    simp only [index_local_pdf, hval]
    rw [if_pos (by simp [hex])]
  refine ⟨hrun, ?_⟩
  rw [hrun]
  simp

/-- State with one existing record titled "b". -/
def stBooksB : St := { books := [(1, "b")] }

/-- Witness for C4: a pre-existing title "b" short-circuits to the skipped
result without a parse call. -/
theorem skip_existing_short_circuit_witness :
    index_local_pdf { s3Enabled := false } cexEnvC1 tokC detokC fileB none
        none true stBooksB
      = (stBooksB, [.validateCall, .existsCheck],
         .ok { book_id := none, title := "b", chunks_count := 0,
               file_path := none, status := "skipped", skipped := true,
               skip_reason := some ("Book with title " ++ "b"
                 ++ " already exists") }) ∧
    Ev.parseCall ∉ (index_local_pdf { s3Enabled := false } cexEnvC1 tokC
        detokC fileB none none true stBooksB).2.1 :=
  skip_existing_short_circuit { s3Enabled := false } cexEnvC1 tokC detokC
    fileB none none stBooksB (by decide) (by decide)

/-- Environment for C2: the duplicate check would pass (the run starts from
an empty store), but the INSERT hits a UniqueViolation - the race between
the check and the insert - which create_book raises as DuplicateBookError. -/
def cexEnvC2 : Env :=
  { parse := .ok (parseResultObj { pages := [], total_pages := 0 } "raw"),
    createBook := .error .uniqueViolation }

/-- C2: with skip_existing=true, a uniqueness violation raised by
create_book at insert time is re-raised to the caller as DuplicateBookError
(batch_indexer.py line 201 re-raises it with no conversion), not converted
into the skipped outcome the spec requires. -/
theorem skip_existing_race_propagates :
    (index_local_pdf { s3Enabled := false } cexEnvC2 tokC detokC fileB
        none none true st0).2.2
      = .err (.duplicateBook cexEnvC2.freshPdfLoc) := by decide

/-- A ParsedDocument-shaped object has no raw_response attribute. -/
theorem getRaw_pdoc (d : ParsedDocument) :
    getRawResponse (parsedDocumentObj d) = none := rfl

/-- A ParsedDocument-shaped object has no document attribute. -/
theorem getDoc_pdoc (d : ParsedDocument) :
    getDocumentAttr (parsedDocumentObj d) = none := rfl

/-- upload_route_error never yields the indexed response. -/
theorem upload_route_error_not_indexed (cfg : Cfg) (env : Env)
    (temp : Option String) (bookId : Option Nat) (stored : Option String)
    (st : St) (evs : List Ev) (e : PipeErr) :
    (upload_route_error cfg env temp bookId stored st evs e).2.2.isIndexed
      = false := by
  rcases e <;> rfl

/-- batch_route_error never yields an indexed result. -/
theorem batch_route_error_not_indexed (cfg : Cfg) (env : Env)
    (fpath : String) (bookId : Option Nat) (stored : Option String)
    (st : St) (evs : List Ev) (e : PipeErr) :
    (batch_route_error cfg env fpath bookId stored st evs e).2.2.isIndexedOk
      = false := by
  rcases e <;> rfl

/-- C5: parse_pdf returns a ParsedDocument, whose attribute map has neither
a `document` nor a `raw_response` field; both pipeline entry points read
those attributes from the parse result, so no run in which parsing succeeds
(returning that shape) can reach a successful indexed result. -/
theorem parsed_document_shape_mismatch :
    (∀ d : ParsedDocument, getRawResponse (parsedDocumentObj d) = none ∧
      getDocumentAttr (parsedDocumentObj d) = none) ∧
    (∀ (cfg : Cfg) (env : Env) (sp : String → List String)
      (ct : String → Nat) (f : UpFile) (t a : Option String) (st : St)
      (d : ParsedDocument), env.parse = .ok (parsedDocumentObj d) →
      (upload_book cfg env sp ct f t a st).2.2.isIndexed = false) ∧
    (∀ (cfg : Cfg) (env : Env) (tok : String → List Nat)
      (detok : List Nat → String) (f : LocalFile) (t a : Option String)
      (se : Bool) (st : St) (d : ParsedDocument),
      env.parse = .ok (parsedDocumentObj d) →
      (index_local_pdf cfg env tok detok f t a se st).2.2.isIndexedOk
        = false) := by
  refine ⟨fun d => ⟨rfl, rfl⟩, ?_, ?_⟩
  · intro cfg env sp ct f t a st d hp
    cases hv : validate_pdf_file f with
    | error e =>
      simp only [upload_book, hv]
      exact upload_route_error_not_indexed _ _ _ _ _ _ _ _
    | ok u =>
      simp only [upload_book, hv]
      by_cases hst : env.saveTempOk
      · rw [if_neg (by simp [hst])]
        simp only [hp, getRaw_pdoc]
        exact upload_route_error_not_indexed _ _ _ _ _ _ _ _
      · rw [if_pos (by simp [hst])]
        exact upload_route_error_not_indexed _ _ _ _ _ _ _ _
  · intro cfg env tok detok f t a se st d hp
    cases hv : validate_pdf_file_path f with
    | error e =>
      simp only [index_local_pdf, hv]
      exact batch_route_error_not_indexed _ _ _ _ _ _ _ _
    | ok u =>
      simp only [index_local_pdf, hv]
      by_cases hsk : (se && exists_by_title st (t.getD f.stem)) = true
      · rw [if_pos hsk]
        rfl
      · rw [if_neg hsk]
        simp only [hp, getRaw_pdoc, getDoc_pdoc]
        repeat' split
        all_goals
          first
          | exact batch_route_error_not_indexed _ _ _ _ _ _ _ _
          | rfl

/-- Environment for the C5 witness: parsing succeeds with the actual
parse_pdf return shape over a one-page document. -/
def cexEnvC5 : Env :=
  { parse := .ok (parsedDocumentObj docOnePage), createBook := .ok 1 }

/-- Witness for C5 at a concrete run of both pipelines. -/
theorem parsed_document_shape_mismatch_witness :
    (getRawResponse (parsedDocumentObj docOnePage) = none ∧
      getDocumentAttr (parsedDocumentObj docOnePage) = none) ∧
    (upload_book { s3Enabled := false } cexEnvC5 splitWhole
        countTokensPerChar fileU none none st0).2.2.isIndexed = false ∧
    (index_local_pdf { s3Enabled := false } cexEnvC5 tokC detokC fileB
        none none false st0).2.2.isIndexedOk = false :=
  ⟨parsed_document_shape_mismatch.1 docOnePage,
   parsed_document_shape_mismatch.2.1 { s3Enabled := false } cexEnvC5
     splitWhole countTokensPerChar fileU none none st0 docOnePage rfl,
   parsed_document_shape_mismatch.2.2 { s3Enabled := false } cexEnvC5 tokC
     detokC fileB none none false st0 docOnePage rfl⟩

/-- A ParseResult-shaped object yields its raw response. -/
theorem getRaw_presult (d : ParsedDocument) (raw : String) :
    getRawResponse (parseResultObj d raw) = some raw := rfl

/-- A ParseResult-shaped object yields its document. -/
theorem getDoc_presult (d : ParsedDocument) (raw : String) :
    getDocumentAttr (parseResultObj d raw) = some d := rfl

/-- Compensation in upload_book: a vector-store failure after a successful
parse ends in 500 INDEXING_FAILED with the created book record deleted, the
raw-parse local backups (both the temp-id one and the book-id one) still
present, nothing removed from the local parsed store, and no S3 copy of the
parse result remaining. -/
theorem upload_compensation (cfg : Cfg) (env : Env)
    (sp : String → List String) (ct : String → Nat) (f : UpFile)
    (t a : Option String) (st : St) (d : ParsedDocument)
    (raw uri m : String) (tk : Nat) (bid : Nat)
    (hv : validate_pdf_file f = .ok ())
    (hst : env.saveTempOk = true)
    (hp : env.parse = .ok (parseResultObj d raw))
    (hup : env.s3Upload = .ok uri)
    (hloc : env.localJsonOk = true)
    (hcb : env.createBook = .ok bid)
    (hs3f : bid ∉ st.s3Parsed)
    (hch : (sentence_chunk_text sp ct d).chunks.isEmpty = false)
    (hem : env.embed = .ok (m, tk))
    (hsc : env.storeChunksOk = false)
    (hdb : env.deleteBookRaises = false)
    (hd3 : env.deleteS3JsonOk = true) :
    (upload_book cfg env sp ct f t a st).2.2
      = .httpErr 500 "INDEXING_FAILED" ∧
    bid ∉ ((upload_book cfg env sp ct f t a st).1.books.map Prod.fst) ∧
    env.freshTempId ∈ (upload_book cfg env sp ct f t a st).1.localParsed ∧
    toString bid ∈ (upload_book cfg env sp ct f t a st).1.localParsed ∧
    (∀ x ∈ st.localParsed,
      x ∈ (upload_book cfg env sp ct f t a st).1.localParsed) ∧
    bid ∉ (upload_book cfg env sp ct f t a st).1.s3Parsed := by
  simp only [upload_book, hv]
  rw [if_neg (by simp [hst])]
  simp only [hp, getRaw_presult, getDoc_presult, save_parsed_result_to_local,
    hloc, if_true]
  by_cases hs3 : cfg.s3Enabled <;>
    [rw [if_pos hs3]; rw [if_neg hs3]] <;>
    (try rw [hup]) <;>
    simp only [create_book, hcb, save_parsed_result,
      save_parsed_result_to_local, save_parsed_result_to_s3, hloc, hs3,
      if_true, if_false, index_book, hch, hem, hsc, rollback_chunks,
      Bool.false_eq_true, cleanup_temp_file] <;>
    by_cases hjs : env.s3JsonOk <;>
    by_cases hdc : env.deleteChunksOk <;>
    simp only [hjs, hdc, if_true, if_false, Bool.false_eq_true,
      Bool.true_eq_false, upload_route_error, cleanup_temp_file,
      pipeline_cleanup, delete_book, hdb, delete_parsed_result_from_s3, hd3,
      hs3, deleteStoredFileSt] <;>
    refine ⟨?_, ?_, ?_, ?_, ?_, ?_⟩ <;>
    (try trivial) <;>
    (try rfl) <;>
    (try simp [List.mem_map, List.mem_filter, List.mem_cons, hs3f,
      move_temp_to_local_storage, copy_to_local_storage]) <;>
    (try (intro x hx; simp [hx]))

/-- Compensation in index_local_pdf: a vector-store failure after a
successful parse surfaces as the re-raised IndexingError, with the created
book record deleted, the local parsed store untouched (the batch path never
writes to it), and no S3 copy of the parse result remaining. -/
theorem batch_compensation (cfg : Cfg) (env : Env)
    (tok : String → List Nat) (detok : List Nat → String) (f : LocalFile)
    (t a : Option String) (se : Bool) (st : St) (d : ParsedDocument)
    (raw uri m : String) (tk : Nat) (bid : Nat)
    (hv : validate_pdf_file_path f = .ok ())
    (hskip : (se && exists_by_title st (t.getD f.stem)) = false)
    (hp : env.parse = .ok (parseResultObj d raw))
    (hup : env.s3Upload = .ok uri)
    (hcb : env.createBook = .ok bid)
    (hs3f : bid ∉ st.s3Parsed)
    (hch : (chunk_text tok detok d).chunks.isEmpty = false)
    (hem : env.embed = .ok (m, tk))
    (hsc : env.storeChunksOk = false)
    (hdb : env.deleteBookRaises = false)
    (hd3 : env.deleteS3JsonOk = true) :
    (index_local_pdf cfg env tok detok f t a se st).2.2
      = .err (.indexing ("Failed to index book " ++ toString bid)) ∧
    bid ∉ ((index_local_pdf cfg env tok detok f t a se st).1.books.map
      Prod.fst) ∧
    (index_local_pdf cfg env tok detok f t a se st).1.localParsed
      = st.localParsed ∧
    bid ∉ (index_local_pdf cfg env tok detok f t a se st).1.s3Parsed := by
  simp only [index_local_pdf, hv]
  rw [if_neg (by simp [hskip])]
  simp only [hp, getRaw_presult, getDoc_presult]
  by_cases hs3 : cfg.s3Enabled <;>
    [rw [if_pos hs3]; rw [if_neg hs3]] <;>
    (try rw [hup]) <;>
    simp only [create_book, hcb, save_parsed_result_to_s3, hs3, if_true,
      if_false, Bool.not_true, Bool.not_false, index_book, hch, hem, hsc,
      rollback_chunks, Bool.false_eq_true, copy_to_local_storage] <;>
    by_cases hjs : env.s3JsonOk <;>
    by_cases hdc : env.deleteChunksOk <;>
    simp only [hjs, hdc, if_true, if_false, Bool.false_eq_true,
      Bool.true_eq_false, batch_route_error, pipeline_cleanup, delete_book,
      hdb, delete_parsed_result_from_s3, hd3, hs3, deleteStoredFileSt] <;>
    refine ⟨?_, ?_, ?_, ?_⟩ <;>
    (try trivial) <;>
    (try rfl) <;>
    (try simp [List.mem_map, List.mem_filter, List.mem_cons, hs3f])

/-- C3: if parsing succeeds and the vector store then fails, both pipeline
entry points compensate: after upload_book returns 500 INDEXING_FAILED the
created book record is absent, both local raw-parse backups (temp-id and
book-id) are present, nothing was removed from the local parsed store, and
no S3 copy of the parse result remains; after index_local_pdf re-raises the
IndexingError the created book record is absent, the local parsed store is
untouched, and no S3 copy of the parse result remains. -/
theorem compensation_preserves_parse_backup
    (cfg : Cfg) (env : Env) (sp : String → List String) (ct : String → Nat)
    (tok : String → List Nat) (detok : List Nat → String)
    (fu : UpFile) (fl : LocalFile) (t a : Option String) (se : Bool)
    (st : St) (d : ParsedDocument) (raw uri m : String) (tk bid : Nat)
    (hvu : validate_pdf_file fu = .ok ())
    (hvl : validate_pdf_file_path fl = .ok ())
    (hskip : (se && exists_by_title st (t.getD fl.stem)) = false)
    (hst : env.saveTempOk = true)
    (hp : env.parse = .ok (parseResultObj d raw))
    (hup : env.s3Upload = .ok uri)
    (hloc : env.localJsonOk = true)
    (hcb : env.createBook = .ok bid)
    (hs3f : bid ∉ st.s3Parsed)
    (hchu : (sentence_chunk_text sp ct d).chunks.isEmpty = false)
    (hchb : (chunk_text tok detok d).chunks.isEmpty = false)
    (hem : env.embed = .ok (m, tk))
    (hsc : env.storeChunksOk = false)
    (hdb : env.deleteBookRaises = false)
    (hd3 : env.deleteS3JsonOk = true) :
    ((upload_book cfg env sp ct fu t a st).2.2
        = .httpErr 500 "INDEXING_FAILED" ∧
      bid ∉ ((upload_book cfg env sp ct fu t a st).1.books.map Prod.fst) ∧
      env.freshTempId ∈ (upload_book cfg env sp ct fu t a st).1.localParsed ∧
      toString bid ∈ (upload_book cfg env sp ct fu t a st).1.localParsed ∧
      (∀ x ∈ st.localParsed,
        x ∈ (upload_book cfg env sp ct fu t a st).1.localParsed) ∧
      bid ∉ (upload_book cfg env sp ct fu t a st).1.s3Parsed) ∧
    ((index_local_pdf cfg env tok detok fl t a se st).2.2
        = .err (.indexing ("Failed to index book " ++ toString bid)) ∧
      bid ∉ ((index_local_pdf cfg env tok detok fl t a se st).1.books.map
        Prod.fst) ∧
      (index_local_pdf cfg env tok detok fl t a se st).1.localParsed
        = st.localParsed ∧
      bid ∉ (index_local_pdf cfg env tok detok fl t a se st).1.s3Parsed) :=
  ⟨upload_compensation cfg env sp ct fu t a st d raw uri m tk bid
      hvu hst hp hup hloc hcb hs3f hchu hem hsc hdb hd3,
   batch_compensation cfg env tok detok fl t a se st d raw uri m tk bid
      hvl hskip hp hup hcb hs3f hchb hem hsc hdb hd3⟩

/-- Concrete environment for the C3 witness: successful parse of a one-page
document, successful S3 upload and book creation, vector store write
failing. -/
def envC3 : Env :=
  { parse := .ok (parseResultObj docOnePage "RAW"),
    s3Upload := .ok "s3://bucket/pdfs/b.pdf",
    createBook := .ok 7,
    storeChunksOk := false }

/-- Witness for C3 at a concrete failing run with S3 enabled. -/
theorem compensation_preserves_parse_backup_witness :
    ((upload_book ⟨true⟩ envC3 splitWhole countTokensPerChar fileU none none
          st0).2.2 = .httpErr 500 "INDEXING_FAILED" ∧
      7 ∉ ((upload_book ⟨true⟩ envC3 splitWhole countTokensPerChar fileU none
        none st0).1.books.map Prod.fst) ∧
      envC3.freshTempId ∈ (upload_book ⟨true⟩ envC3 splitWhole
        countTokensPerChar fileU none none st0).1.localParsed ∧
      toString 7 ∈ (upload_book ⟨true⟩ envC3 splitWhole countTokensPerChar
        fileU none none st0).1.localParsed ∧
      (∀ x ∈ st0.localParsed,
        x ∈ (upload_book ⟨true⟩ envC3 splitWhole countTokensPerChar fileU
          none none st0).1.localParsed) ∧
      7 ∉ (upload_book ⟨true⟩ envC3 splitWhole countTokensPerChar fileU none
        none st0).1.s3Parsed) ∧
    ((index_local_pdf ⟨true⟩ envC3 tokC detokC fileB none none true st0).2.2
        = .err (.indexing ("Failed to index book " ++ toString 7)) ∧
      7 ∉ ((index_local_pdf ⟨true⟩ envC3 tokC detokC fileB none none true
        st0).1.books.map Prod.fst) ∧
      (index_local_pdf ⟨true⟩ envC3 tokC detokC fileB none none true
        st0).1.localParsed = st0.localParsed ∧
      7 ∉ (index_local_pdf ⟨true⟩ envC3 tokC detokC fileB none none true
        st0).1.s3Parsed) :=
  compensation_preserves_parse_backup ⟨true⟩ envC3 splitWhole
    countTokensPerChar tokC detokC fileU fileB none none true st0 docOnePage
    "RAW" "s3://bucket/pdfs/b.pdf" "text-embedding-3-small" 0 7
    (by decide) (by decide) (by decide) rfl rfl rfl rfl rfl (by decide)
    (by decide) (by decide) rfl rfl rfl rfl
